import Mathlib

/-! The rtpmidid client session (`lib/rtpclient.cpp`).

A shallow embedding of `rtpmidid::rtpclient`: the session fields, the parts of
the operating system, the poller and the peer that the client drives, and the
operations `connect_to`, `connected`, `send_ck0_with_timeout`, `reset` together
with the callbacks the client installs (status handler, latency-reply handler
and the three timer callbacks).

Every call the client makes on a collaborator is appended to `trace`, so that
"issues exactly one ...", "closes no descriptor" and similar statements are
statements about that list.
-/

namespace rtpmidid

/-! ## Collaborator vocabulary -/

/-- Logical channel of a session (`rtppeer::port_e`). -/
inductive port_e
  | CONTROL_PORT
  | MIDI_PORT
  deriving DecidableEq, Repr

/-- Modelled from the spec: the peer status enumeration `rtppeer::status_e`, declared in
`rtppeer.hpp` which is not part of the sources at hand.  The spec lists the
values CONTROL_CONNECTED, MIDI_CONNECTED and CONNECTED next to the initial
not-connected status; the client only ever compares a status for equality. -/
inductive status_e
  | NOT_CONNECTED
  | CONTROL_CONNECTED
  | MIDI_CONNECTED
  | CONNECTED
  deriving DecidableEq, Repr

/-- Modelled from the spec: the reasons carried by the peer's disconnect-requested event
(`rtppeer::disconnect_reason_e`, declared in `rtppeer.hpp`). -/
inductive disconnect_reason_e
  | CANT_CONNECT
  | CONNECT_TIMEOUT
  | CK_TIMEOUT
  | GOODBYE_RECEIVED
  deriving DecidableEq, Repr

/-- The three timer handles of the session. -/
inductive timer_handle
  | connect_timer
  | ck_timeout
  | timer_ck
  deriving DecidableEq, Repr

/-- The three callbacks the session hands to `poller.add_timer_event`:
the lambda of line 229, the lambda of line 262 and the lambda of lines 250/254. -/
inductive timer_cb
  | connect_timeout
  | ck_timeout
  | send_ck0_with_timeout
  deriving DecidableEq, Repr

/-- A socket address: an abstract host and a 16-bit port field. -/
structure sockaddr where
  host : Nat
  port : Fin 65536
  deriving DecidableEq, Repr

/-- Conversion of an `int` to a 16-bit port field (`htons` takes a `uint16_t`, so the
argument is truncated; byte order is abstracted away). -/
def htons (x : Int) : Fin 65536 :=
  ⟨(x % 65536).toNat, by omega⟩

/-- Reading a 16-bit port field back as an `int` (`ntohs`). -/
def ntohs (p : Fin 65536) : Int :=
  (p.val : Int)

/-- Calls the session makes on the operating system, the poller and the peer. -/
inductive effect
  | sys_socket (ret : Int)
  | sys_setsockopt (fd : Int)
  | sys_bind (fd : Int) (port : Fin 65536)
  | sys_connect (fd : Int) (addr : sockaddr)
  | sys_close (fd : Int)
  | freeaddrinfo
  | add_fd_in (fd : Int) (port : port_e)
  | remove_fd (fd : Int)
  | add_timer_event (ms : Nat) (cb : timer_cb)
  | timer_disable (t : timer_handle)
  | connected_event_connect (id : Nat)
  | connected_event_disconnect (id : Nat)
  | ck_event_connect
  | peer_connect_to (port : port_e)
  | peer_send_ck0
  | peer_reset
  | disconnect_event (reason : disconnect_reason_e)
  | bad_optional_access
  deriving DecidableEq, Repr

/-! ## Session state -/

/-- Modelled from the spec: a timer handle of the poller (`poller_t::timer_t`, declared in
`poller.hpp`). A timer is one-shot and cancelable: the handle is `some ms` while
a timer of `ms` milliseconds is pending and `none` once it has fired or was
disabled. A handle owns at most one timer, so storing a new timer in it
replaces the one it held. -/
abbrev timer_t : Type :=
  Option Nat

/-- The client session together with the collaborators' state it acts on.

* `local_base_port` .. `timerstate` are the fields of `rtpclient`;
  `conn_event` holds the token returned by `peer.connected_event.connect`.
* `open_fds` are the descriptors returned by the session's `socket()` calls and
  not closed since; `poller_fds` are the descriptors registered with the
  poller; `connected_subs` are the live subscriptions to
  `peer.connected_event`, `ck_subs` counts the handlers connected to
  `peer.ck_event`. -/
structure rtpclient where
  local_base_port : Int
  remote_base_port : Int
  control_socket : Int
  midi_socket : Int
  control_addr : sockaddr
  midi_addr : sockaddr
  conn_event : Option Nat
  connect_timer : timer_t
  ck_timeout : timer_t
  timer_ck : timer_t
  timerstate : Int
  open_fds : List Int
  poller_fds : List Int
  connected_subs : List Nat
  next_sub : Nat
  ck_subs : Nat
  trace : List effect
  deriving DecidableEq, Repr

/-- One resolved candidate (`struct addrinfo`) together with the outcomes of the
system calls the candidate loop issues for it. `socket_ret = none` is a failed
`socket()` (return value -1), `some fd` a new descriptor. -/
structure control_try where
  ai_addr : sockaddr
  socket_ret : Option Nat
  setsockopt_ok : Bool
  bind_ok : Bool
  connect_ok : Bool
  deriving DecidableEq, Repr

/-- Outcomes of the resolver and of the system calls of one `connect_to`. -/
structure syscalls where
  getaddrinfo_res : Int
  sockaddress_list : List control_try
  getsockname_port : Fin 65536
  midi_socket_ret : Option Nat
  midi_setsockopt_ok : Bool
  midi_bind_ok : Bool
  midi_connect_ok : Bool
  deriving DecidableEq, Repr

/-- Return value of `socket()`. -/
def socket_ret : Option Nat → Int
  | none => -1
  | some fd => (fd : Int)

/-- Return value of `setsockopt`, `bind` and `connect`: 0 on success, -1 on error. -/
def cret (ok : Bool) : Int :=
  if ok then 0 else -1

/-- Record a call. -/
def log (e : effect) (s : rtpclient) : rtpclient :=
  { s with trace := s.trace ++ [e] }

/-- The system call `socket()`. -/
def os_socket (r : Option Nat) (s : rtpclient) : rtpclient :=
  log (effect.sys_socket (socket_ret r))
    { s with open_fds := match r with
                         | none => s.open_fds
                         | some fd => s.open_fds ++ [(fd : Int)] }

/-- The system call `close(fd)`. -/
def os_close (fd : Int) (s : rtpclient) : rtpclient :=
  log (effect.sys_close fd) { s with open_fds := s.open_fds.erase fd }

/-- Modelled from the spec: `poller.add_fd_in` (register-for-readability), from `poller.hpp`. -/
def poller_add_fd_in (fd : Int) (port : port_e) (s : rtpclient) : rtpclient :=
  log (effect.add_fd_in fd port) { s with poller_fds := s.poller_fds ++ [fd] }

/-- Modelled from the spec: `poller.remove_fd` (deregister), from `poller.hpp`. -/
def poller_remove_fd (fd : Int) (s : rtpclient) : rtpclient :=
  log (effect.remove_fd fd) { s with poller_fds := s.poller_fds.erase fd }

/-- The constructor `rtpclient::rtpclient` (lines 41-51). `timerstate` is not
assigned by the constructor and the addresses are not initialised, so they are
parameters. -/
def rtpclient_new (timerstate : Int) (addr : sockaddr) : rtpclient :=
  { local_base_port := -1
    remote_base_port := -1
    control_socket := -1
    midi_socket := -1
    control_addr := addr
    midi_addr := addr
    conn_event := none
    connect_timer := none
    ck_timeout := none
    timer_ck := none
    timerstate := timerstate
    open_fds := []
    poller_fds := []
    connected_subs := []
    next_sub := 0
    ck_subs := 0
    trace := [] }

/-! ## `connect_to` -/

/-- How one pass of the candidate loop body ends. -/
inductive cand_exit
  | continue_
  | break_
  | throw_
  deriving DecidableEq, Repr

/-- Body of the candidate loop (lines 102-134). -/
def try_candidate (local_port : Int) (c : control_try) (s : rtpclient) :
    rtpclient × cand_exit :=
  let s := { os_socket c.socket_ret s with control_socket := socket_ret c.socket_ret }
  if s.control_socket ≤ 0 then (s, cand_exit.continue_)
  else
    let s := log (effect.sys_setsockopt s.control_socket) s
    if cret c.setsockopt_ok ≠ 0 then
      ({ os_close s.control_socket s with control_socket := -1 }, cand_exit.throw_)
    else
      let bound : rtpclient × Bool :=
        if local_port ≥ 0 then
          let s := log (effect.sys_bind s.control_socket (htons local_port)) s
          if cret c.bind_ok ≠ 0 then
            ({ os_close s.control_socket s with control_socket := -1 }, true)
          else (s, false)
        else (s, false)
      if bound.2 then (bound.1, cand_exit.throw_)
      else
        let s := log (effect.sys_connect bound.1.control_socket c.ai_addr) bound.1
        if cret c.connect_ok = 0 then (s, cand_exit.break_)
        else (os_close s.control_socket s, cand_exit.continue_)

/-- How the candidate loop ends: with `break` at a candidate, by running off the
end of the list (`serveraddr == nullptr`), or with an exception. -/
inductive loop_exit
  | brk (serveraddr : control_try)
  | finished
  | threw
  deriving DecidableEq, Repr

/-- The candidate loop (lines 100-135). -/
def candidate_loop (local_port : Int) : List control_try → rtpclient → rtpclient × loop_exit
  | [], s => (s, loop_exit.finished)
  | c :: rest, s =>
    match try_candidate local_port c s with
    | (s1, cand_exit.continue_) => candidate_loop local_port rest s1
    | (s1, cand_exit.break_) => (s1, loop_exit.brk c)
    | (s1, cand_exit.throw_) => (s1, loop_exit.threw)

/-- Lines 142-189: the data (MIDI) socket, once the control socket is connected
to `serveraddr`. The boolean says whether an exception was thrown. -/
def midi_phase (sc : syscalls) (serveraddr : control_try) (s : rtpclient) : rtpclient × Bool :=
  let s := { s with control_addr := serveraddr.ai_addr }
  let s := { s with local_base_port := ntohs sc.getsockname_port }
  let s := poller_add_fd_in s.control_socket port_e.CONTROL_PORT s
  let s := { os_socket sc.midi_socket_ret s with midi_socket := socket_ret sc.midi_socket_ret }
  if s.midi_socket < 0 then (s, true)
  else
    let s := { s with remote_base_port := ntohs serveraddr.ai_addr.port }
    let ai_addr : sockaddr := { serveraddr.ai_addr with port := htons (s.remote_base_port + 1) }
    let servaddr_port := htons (s.local_base_port + 1)
    let s := log (effect.sys_setsockopt s.midi_socket) s
    if cret sc.midi_setsockopt_ok ≠ 0 then (s, true)
    else
      let s := log (effect.sys_bind s.midi_socket servaddr_port) s
      if cret sc.midi_bind_ok < 0 then (s, true)
      else
        let s := log (effect.sys_connect s.midi_socket ai_addr) s
        if cret sc.midi_connect_ok < 0 then (s, true)
        else
          let s := { s with midi_addr := ai_addr }
          (poller_add_fd_in s.midi_socket port_e.MIDI_PORT s, false)

/-- The `try` block of `connect_to` (lines 84-189). The boolean says whether an
exception was thrown. -/
def establish (sc : syscalls) (local_port : Int) (s : rtpclient) : rtpclient × Bool :=
  if sc.getaddrinfo_res < 0 then (s, true)
  else
    match candidate_loop local_port sc.sockaddress_list s with
    | (s1, loop_exit.threw) => (s1, true)
    | (s1, loop_exit.finished) => ({ s1 with control_socket := 0 }, true)
    | (s1, loop_exit.brk serveraddr) => midi_phase sc serveraddr s1

/-- The `catch` block of `connect_to` (lines 190-207). `sockaddress_list` is
non-null when `getaddrinfo` succeeded and returned at least one candidate. -/
def connect_to_catch (sc : syscalls) (s : rtpclient) : rtpclient :=
  let s : rtpclient := if s.control_socket ≥ 0 then
      { os_close s.control_socket (poller_remove_fd s.control_socket s) with control_socket := -1 }
    else s
  let s : rtpclient := if s.midi_socket ≥ 0 then
      { os_close s.midi_socket (poller_remove_fd s.midi_socket s) with midi_socket := -1 }
    else s
  let s : rtpclient :=
    if sc.getaddrinfo_res ≥ 0 ∧ sc.sockaddress_list ≠ [] then log effect.freeaddrinfo s else s
  log (effect.disconnect_event disconnect_reason_e.CANT_CONNECT) s

/-- Lines 208-233: the handshake is started once both sockets are in place. -/
def start_handshake (sc : syscalls) (s : rtpclient) : rtpclient :=
  let s : rtpclient :=
    if sc.getaddrinfo_res ≥ 0 ∧ sc.sockaddress_list ≠ [] then log effect.freeaddrinfo s else s
  let id := s.next_sub
  let s : rtpclient := { log (effect.connected_event_connect id) s with
             conn_event := some id
             connected_subs := s.connected_subs ++ [id]
             next_sub := id + 1 }
  let s : rtpclient := log (effect.peer_connect_to port_e.CONTROL_PORT) s
  { log (effect.add_timer_event 20000 timer_cb.connect_timeout) s with connect_timer := some 20000 }

/-- The operation `rtpclient::connect_to` (lines 71-233). The host and service
strings only reach the resolver, whose answer is part of `sc`. -/
def connect_to (sc : syscalls) (local_port : Int) (s : rtpclient) : rtpclient :=
  let s := { s with control_socket := -1, midi_socket := -1 }
  match establish sc local_port s with
  | (s1, true) => connect_to_catch sc s1
  | (s1, false) => start_handshake sc s1

/-- Whether `connect_to` obtains both sockets (its `try` block does not throw). -/
def establishes (sc : syscalls) (local_port : Int) (s : rtpclient) : Bool :=
  !(establish sc local_port { s with control_socket := -1, midi_socket := -1 }).2

/-! ## Keepalive -/

/-- The operation `rtpclient::send_ck0_with_timeout` (lines 260-265). -/
def send_ck0_with_timeout (s : rtpclient) : rtpclient :=
  let s := log effect.peer_send_ck0 s
  { log (effect.add_timer_event 5000 timer_cb.ck_timeout) s with ck_timeout := some 5000 }

/-- The latency-reply handler connected to `peer.ck_event` (lines 246-256). -/
def ck_handler (s : rtpclient) : rtpclient :=
  let s := { log (effect.timer_disable timer_handle.ck_timeout) s with ck_timeout := none }
  if s.timerstate < 6 then
    let s := { log (effect.add_timer_event 250 timer_cb.send_ck0_with_timeout) s with
               timer_ck := some 250 }
    { s with timerstate := s.timerstate + 1 }
  else
    { log (effect.add_timer_event 10000 timer_cb.send_ck0_with_timeout) s with
      timer_ck := some 10000 }

/-- The operation `rtpclient::connected` (lines 243-258). -/
def connected (s : rtpclient) : rtpclient :=
  let s := { log (effect.timer_disable timer_handle.connect_timer) s with connect_timer := none }
  let s := { log effect.ck_event_connect s with ck_subs := s.ck_subs + 1 }
  send_ck0_with_timeout s

/-- The status handler connected to `peer.connected_event` (lines 217-225). -/
def connected_handler (status : status_e) (s : rtpclient) : rtpclient :=
  if status = status_e.CONTROL_CONNECTED then
    log (effect.peer_connect_to port_e.MIDI_PORT) s
  else if status = status_e.CONNECTED then
    connected s
  else s

/-- The callback of `connect_timer` (lines 229-232). `conn_event.value()` throws
when the optional is empty. -/
def connect_timeout_cb (s : rtpclient) : rtpclient :=
  match s.conn_event with
  | none => log effect.bad_optional_access s
  | some id =>
    let s := { log (effect.connected_event_disconnect id) s with
               connected_subs := s.connected_subs.erase id }
    log (effect.disconnect_event disconnect_reason_e.CONNECT_TIMEOUT) s

/-- The callback of `ck_timeout` (lines 262-264). -/
def ck_timeout_cb (s : rtpclient) : rtpclient :=
  log (effect.disconnect_event disconnect_reason_e.CK_TIMEOUT) s

/-! ## `reset` -/

/-- The operation `rtpclient::reset` (lines 281-309). -/
def reset (s : rtpclient) : rtpclient :=
  let s : rtpclient := { s with timerstate := 0 }
  let s : rtpclient :=
    { log (effect.timer_disable timer_handle.connect_timer) s with connect_timer := none }
  let s : rtpclient := match s.conn_event with
    | some id =>
      { log (effect.connected_event_disconnect id) s with
        connected_subs := s.connected_subs.erase id
        conn_event := none }
    | none => s
  let s : rtpclient := { s with remote_base_port := 0 }
  let s : rtpclient := if s.midi_socket ≥ 0 then
      { os_close s.midi_socket (poller_remove_fd s.midi_socket s) with midi_socket := 0 }
    else s
  let s : rtpclient := if s.control_socket ≥ 0 then
      { os_close s.control_socket (poller_remove_fd s.control_socket s) with control_socket := 0 }
    else s
  log effect.peer_reset s

/-! ## Events delivered by the reactor and the peer -/

/-- What the single-threaded reactor can deliver to the session: a status change
or a latency reply from the peer, or the expiry of one of the three timers. -/
inductive event
  | status_changed (status : status_e)
  | ck_reply
  | connect_timer_fired
  | ck_timeout_fired
  | timer_ck_fired
  deriving DecidableEq, Repr

/-- Modelled from the spec: delivery of one event. A signal runs every handler connected to
it, in order; a one-shot timer runs its callback only while pending and is no
longer pending afterwards (a disabled timer never fires). -/
def step (e : event) (s : rtpclient) : rtpclient :=
  match e with
  | event.status_changed status =>
    s.connected_subs.foldl (fun acc _ => connected_handler status acc) s
  | event.ck_reply => Nat.iterate ck_handler s.ck_subs s
  | event.connect_timer_fired =>
    match s.connect_timer with
    | none => s
    | some _ => connect_timeout_cb { s with connect_timer := none }
  | event.ck_timeout_fired =>
    match s.ck_timeout with
    | none => s
    | some _ => ck_timeout_cb { s with ck_timeout := none }
  | event.timer_ck_fired =>
    match s.timer_ck with
    | none => s
    | some _ => send_ck0_with_timeout { s with timer_ck := none }

/-- Delivery of a sequence of events, in order. -/
def run (es : List event) (s : rtpclient) : rtpclient :=
  es.foldl (fun acc e => step e acc) s

/-- The public operations of the session. -/
inductive op
  | connect_to (sc : syscalls) (local_port : Int)
  | reset
  deriving DecidableEq, Repr

/-- Apply one public operation. -/
def apply_op (o : op) (s : rtpclient) : rtpclient :=
  match o with
  | op.connect_to sc local_port => connect_to sc local_port s
  | op.reset => reset s

/-- Apply a sequence of public operations, in order. -/
def run_ops (os : List op) (s : rtpclient) : rtpclient :=
  os.foldl (fun acc o => apply_op o acc) s

/-! ## Stages of `reset` and of the rollback in `connect_to` -/

/-- Lines 290-293 of `reset`: revoke the status subscription if one is held. -/
def reset_conn_event (s : rtpclient) : rtpclient :=
  match s.conn_event with
  | some id =>
    { log (effect.connected_event_disconnect id) s with
      connected_subs := s.connected_subs.erase id
      conn_event := none }
  | none => s

/-- Lines 298-302 of `reset`: close the data socket. -/
def reset_midi_socket (s : rtpclient) : rtpclient :=
  if s.midi_socket ≥ 0 then
    { os_close s.midi_socket (poller_remove_fd s.midi_socket s) with midi_socket := 0 }
  else s

/-- Lines 303-307 of `reset`: close the control socket. -/
def reset_control_socket (s : rtpclient) : rtpclient :=
  if s.control_socket ≥ 0 then
    { os_close s.control_socket (poller_remove_fd s.control_socket s) with control_socket := 0 }
  else s

/-- Lines 192-196 of `connect_to`: roll back the control socket. -/
def catch_control_socket (s : rtpclient) : rtpclient :=
  if s.control_socket ≥ 0 then
    { os_close s.control_socket (poller_remove_fd s.control_socket s) with control_socket := -1 }
  else s

/-- Lines 197-201 of `connect_to`: roll back the data socket. -/
def catch_midi_socket (s : rtpclient) : rtpclient :=
  if s.midi_socket ≥ 0 then
    { os_close s.midi_socket (poller_remove_fd s.midi_socket s) with midi_socket := -1 }
  else s

/-! ## Auxiliary notions used by the statements -/

/-- Calls on the operating system and on the poller's descriptor table, as
opposed to calls on the peer and on timers. -/
def effect.is_os : effect → Bool
  | effect.sys_socket _ => true
  | effect.sys_setsockopt _ => true
  | effect.sys_bind _ _ => true
  | effect.sys_connect _ _ => true
  | effect.sys_close _ => true
  | effect.freeaddrinfo => true
  | effect.add_fd_in _ _ => true
  | effect.remove_fd _ => true
  | _ => false

/-- The calls of a trace that go to the peer or to timers. -/
def peer_calls (t : List effect) : List effect :=
  t.filter (fun e => !e.is_os)

/-- The part of the state that socket establishment does not touch: subscription,
timers, round counter and the peer's signal tables. -/
def ctl (s : rtpclient) :
    Option Nat × Option Nat × Option Nat × Option Nat × Int × List Nat × Nat × Nat :=
  (s.conn_event, s.connect_timer, s.ck_timeout, s.timer_ck, s.timerstate,
   s.connected_subs, s.next_sub, s.ck_subs)

/-- Socket bookkeeping of the session: the poller watches exactly the open
sockets, and either no socket is open or the two open sockets are the ones held
in `control_socket` and `midi_socket`. -/
def sockets_tracked (s : rtpclient) : Prop :=
  s.poller_fds = s.open_fds ∧
  (s.open_fds = [] ∨
    (s.open_fds = [s.control_socket, s.midi_socket] ∧ 0 ≤ s.control_socket ∧ 0 ≤ s.midi_socket))

instance (s : rtpclient) : Decidable (sockets_tracked s) := by
  unfold sockets_tracked
  infer_instance

/-! ## Concrete scenarios -/

/-- A freshly constructed session. -/
def fresh : rtpclient :=
  rtpclient_new 0 { host := 0, port := 0 }

/-- The remote endpoint 127.0.0.1:5004, as host number 1. -/
def remote_5004 : sockaddr :=
  { host := 1, port := 5004 }

/-- Every system call succeeds: control socket 5 on local port 40000, data socket 6. -/
def sc_ok : syscalls :=
  { getaddrinfo_res := 0
    sockaddress_list :=
      [{ ai_addr := remote_5004, socket_ret := some 5, setsockopt_ok := true,
         bind_ok := true, connect_ok := true }]
    getsockname_port := 40000
    midi_socket_ret := some 6
    midi_setsockopt_ok := true
    midi_bind_ok := true
    midi_connect_ok := true }

/-- Every system call succeeds a second time, with descriptors 7 and 8. -/
def sc_ok_again : syscalls :=
  { sc_ok with
    sockaddress_list :=
      [{ ai_addr := remote_5004, socket_ret := some 7, setsockopt_ok := true,
         bind_ok := true, connect_ok := true }]
    getsockname_port := 40002
    midi_socket_ret := some 8 }

/-- The single resolved candidate gets socket 5 but `connect()` fails on it. -/
def sc_no_candidate : syscalls :=
  { sc_ok with
    sockaddress_list :=
      [{ ai_addr := remote_5004, socket_ret := some 5, setsockopt_ok := true,
         bind_ok := true, connect_ok := false }] }

/-- Descriptor 0 is free: `socket()` returns 0 for the first candidate and 5 for
the second, which connects; binding the data socket 6 fails. -/
def sc_fd_zero : syscalls :=
  { sc_ok with
    sockaddress_list :=
      [{ ai_addr := remote_5004, socket_ret := some 0, setsockopt_ok := true,
         bind_ok := true, connect_ok := true },
       { ai_addr := remote_5004, socket_ret := some 5, setsockopt_ok := true,
         bind_ok := true, connect_ok := true }]
    midi_bind_ok := false }

/-- Every system call succeeds, with the control socket on local port 65535 and
the remote control port 65535. -/
def sc_top_port : syscalls :=
  { sc_ok with
    sockaddress_list :=
      [{ ai_addr := { host := 1, port := 65535 }, socket_ret := some 5, setsockopt_ok := true,
         bind_ok := true, connect_ok := true }]
    getsockname_port := 65535 }

/-- Descriptor 0 is free: `socket()` returns 0 for the first candidate and 5 for
the second, and every later call succeeds. -/
def sc_fd_zero_ok : syscalls :=
  { sc_fd_zero with midi_bind_ok := true }

/-- A session whose handshake has been started. -/
def handshaking : rtpclient :=
  connect_to sc_ok (-1) fresh

/-- A connected session with its first latency probe outstanding. -/
def probing : rtpclient :=
  run [event.status_changed status_e.CONTROL_CONNECTED,
       event.status_changed status_e.CONNECTED] handshaking

/-- The usage discipline of the public operations: `connect_to` is only invoked
while the session has no open socket (first use, after `reset`, or after a
failed `connect_to`), and no `socket()` call of the candidate loop returns
descriptor 0. -/
def connects_when_closed : List op → rtpclient → Bool
  | [], _ => true
  | op.reset :: rest, s => connects_when_closed rest (reset s)
  | op.connect_to sc local_port :: rest, s =>
    s.open_fds.isEmpty && sc.sockaddress_list.all (fun c => c.socket_ret != some 0) &&
      connects_when_closed rest (connect_to sc local_port s)

/-- The states of the session after each operation of a sequence. -/
def history : List op → rtpclient → List rtpclient
  | [], _ => []
  | o :: rest, s => apply_op o s :: history rest (apply_op o s)

/-! ## Descriptor tables read off a trace -/

/-- The descriptor tables as they can be read off a trace: the descriptors that
`socket()` returned and `close()` has not closed since, the descriptors
registered with the poller, and whether, after every call so far, every
registered descriptor was open. -/
structure fd_tables where
  open_fds : List Int
  poller_fds : List Int
  ok : Bool
  deriving DecidableEq, Repr

/-- The effect of one call on the descriptor tables. A registered descriptor
that is not open arises exactly when a descriptor is closed while still
registered, or is registered when it is not open. -/
def track (t : fd_tables) (e : effect) : fd_tables :=
  let t1 : fd_tables :=
    match e with
    | effect.sys_socket ret =>
      if ret ≥ 0 then { t with open_fds := t.open_fds ++ [ret] } else t
    | effect.sys_close fd => { t with open_fds := t.open_fds.erase fd }
    | effect.add_fd_in fd _ => { t with poller_fds := t.poller_fds ++ [fd] }
    | effect.remove_fd fd => { t with poller_fds := t.poller_fds.erase fd }
    | _ => t
  { t1 with ok := t.ok && t1.poller_fds.all (fun fd => decide (fd ∈ t1.open_fds)) }

/-- The descriptor tables after a trace that starts with no descriptor open. -/
def replay (tr : List effect) : fd_tables :=
  tr.foldl track { open_fds := [], poller_fds := [], ok := true }

/-- The trace of the session accounts for its descriptor tables, and after every
call of the trace every registered descriptor was open. -/
def consistent (s : rtpclient) : Prop :=
  replay s.trace = { open_fds := s.open_fds, poller_fds := s.poller_fds, ok := true }

/-- The socket states in which the `try` block of `connect_to` is left by an
exception: nothing open; the control socket open and registered; or both
sockets open and the control socket registered. -/
def throw_shape (s : rtpclient) : Prop :=
  (s.open_fds = [] ∧ s.poller_fds = []) ∨
  (s.open_fds = [s.control_socket] ∧ s.poller_fds = [s.control_socket] ∧
    0 ≤ s.control_socket ∧ s.midi_socket < 0) ∨
  (s.open_fds = [s.control_socket, s.midi_socket] ∧ s.poller_fds = [s.control_socket] ∧
    0 ≤ s.control_socket ∧ 0 ≤ s.midi_socket)

/-- Two `connect_to` calls in a row, without `reset()` in between. -/
def double_attempt : rtpclient :=
  connect_to sc_ok_again (-1) (connect_to sc_ok (-1) fresh)

theorem ck_handler_fast (s : rtpclient) (h : s.timerstate < 6) :
    ck_handler s =
      { s with ck_timeout := none, timer_ck := some 250, timerstate := s.timerstate + 1,
               trace := s.trace ++ [effect.timer_disable timer_handle.ck_timeout,
                 effect.add_timer_event 250 timer_cb.send_ck0_with_timeout] } := by
  simp [ck_handler, log, h]

theorem ck_handler_slow (s : rtpclient) (h : ¬ s.timerstate < 6) :
    ck_handler s =
      { s with ck_timeout := none, timer_ck := some 10000,
               trace := s.trace ++ [effect.timer_disable timer_handle.ck_timeout,
                 effect.add_timer_event 10000 timer_cb.send_ck0_with_timeout] } := by
  simp [ck_handler, log, h]

@[simp] theorem peer_calls_append (a b : List effect) :
    peer_calls (a ++ b) = peer_calls a ++ peer_calls b := by
  simp [peer_calls]

theorem try_candidate_ctl (local_port : Int) (c : control_try) (s : rtpclient) :
    ctl (try_candidate local_port c s).1 = ctl s ∧
    peer_calls (try_candidate local_port c s).1.trace = peer_calls s.trace := by
  unfold try_candidate
  simp only []
  split_ifs <;> simp [ctl, log, os_socket, os_close, peer_calls, effect.is_os]

theorem candidate_loop_ctl (local_port : Int) (l : List control_try) (s : rtpclient) :
    ctl (candidate_loop local_port l s).1 = ctl s ∧
    peer_calls (candidate_loop local_port l s).1.trace = peer_calls s.trace := by
  induction l generalizing s with
  | nil => simp [candidate_loop]
  | cons c rest ih =>
    have h := try_candidate_ctl local_port c s
    unfold candidate_loop
    split
    · rename_i s1 heq
      rw [heq] at h
      obtain ⟨i1, i2⟩ := ih s1
      exact ⟨i1.trans h.1, i2.trans h.2⟩
    · rename_i s1 heq
      rw [heq] at h
      exact h
    · rename_i s1 heq
      rw [heq] at h
      exact h

theorem midi_phase_ctl (sc : syscalls) (c : control_try) (s : rtpclient) :
    ctl (midi_phase sc c s).1 = ctl s ∧
    peer_calls (midi_phase sc c s).1.trace = peer_calls s.trace := by
  unfold midi_phase
  simp only []
  split_ifs <;> simp [ctl, log, os_socket, poller_add_fd_in, peer_calls, effect.is_os]

theorem establish_ctl (sc : syscalls) (local_port : Int) (s : rtpclient) :
    ctl (establish sc local_port s).1 = ctl s ∧
    peer_calls (establish sc local_port s).1.trace = peer_calls s.trace := by
  unfold establish
  split
  · simp
  · have h := candidate_loop_ctl local_port sc.sockaddress_list s
    split
    · rename_i s1 heq
      rw [heq] at h
      exact h
    · rename_i s1 heq
      rw [heq] at h
      exact h
    · rename_i s1 c heq
      rw [heq] at h
      have m := midi_phase_ctl sc c s1
      exact ⟨m.1.trans h.1, m.2.trans h.2⟩

/-! ## Invariants of event delivery -/

theorem fold_handler_inv (P : rtpclient → Prop) (status : status_e)
    (h : ∀ t, P t → P (connected_handler status t)) (l : List Nat) (s : rtpclient) (hs : P s) :
    P (l.foldl (fun acc _ => connected_handler status acc) s) := by
  induction l generalizing s with
  | nil => simpa using hs
  | cons a l ih => exact ih _ (h s hs)

theorem iterate_handler_inv (P : rtpclient → Prop)
    (h : ∀ t, P t → P (ck_handler t)) (n : Nat) (s : rtpclient) (hs : P s) :
    P (Nat.iterate ck_handler n s) := by
  induction n generalizing s with
  | zero => simpa using hs
  | succ n ih => exact ih _ (h s hs)

/-- An invariant kept by every callback of the session is kept by every event. -/
theorem step_inv (P : rtpclient → Prop) (e : event) (s : rtpclient) (hs : P s)
    (hst : ∀ status t, e = event.status_changed status → P t → P (connected_handler status t))
    (hck : ∀ t, e = event.ck_reply → P t → P (ck_handler t))
    (hct : ∀ ms, e = event.connect_timer_fired → s.connect_timer = some ms →
      P (connect_timeout_cb { s with connect_timer := none }))
    (hkt : ∀ ms, e = event.ck_timeout_fired → s.ck_timeout = some ms →
      P (ck_timeout_cb { s with ck_timeout := none }))
    (htc : ∀ ms, e = event.timer_ck_fired → s.timer_ck = some ms →
      P (send_ck0_with_timeout { s with timer_ck := none })) :
    P (step e s) := by
  cases e with
  | status_changed status =>
    exact fold_handler_inv P status (fun t ht => hst status t rfl ht) _ s hs
  | ck_reply => exact iterate_handler_inv P (fun t ht => hck t rfl ht) _ s hs
  | connect_timer_fired =>
    simp only [step]
    split
    · exact hs
    · rename_i ms heq
      exact hct ms rfl heq
  | ck_timeout_fired =>
    simp only [step]
    split
    · exact hs
    · rename_i ms heq
      exact hkt ms rfl heq
  | timer_ck_fired =>
    simp only [step]
    split
    · exact hs
    · rename_i ms heq
      exact htc ms rfl heq

/-- No event other than the expiry of `connect_timer` changes the status
subscription. -/
theorem step_subs (e : event) (he : e ≠ event.connect_timer_fired) (s : rtpclient) :
    (step e s).connected_subs = s.connected_subs ∧ (step e s).conn_event = s.conn_event := by
  apply step_inv (fun t => t.connected_subs = s.connected_subs ∧ t.conn_event = s.conn_event)
  · exact ⟨rfl, rfl⟩
  · intro status t _ ht
    unfold connected_handler
    split_ifs <;> simpa [log, connected, send_ck0_with_timeout] using ht
  · intro t _ ht
    unfold ck_handler
    simp only []
    split_ifs <;> simpa [log] using ht
  · intro ms h; exact absurd h he
  · intro ms _ _; simp [ck_timeout_cb, log]
  · intro ms _ _; simp [send_ck0_with_timeout, log]

/-- The overall timer stays as it is under every event but its own expiry and
the CONNECTED status. -/
theorem step_connect_timer (e : event) (he : e ≠ event.connect_timer_fired)
    (hc : e ≠ event.status_changed status_e.CONNECTED) (s : rtpclient) :
    (step e s).connect_timer = s.connect_timer := by
  apply step_inv (fun t => t.connect_timer = s.connect_timer)
  · rfl
  · intro status t hst ht
    have : status ≠ status_e.CONNECTED := fun h => hc (by rw [hst, h])
    unfold connected_handler
    split_ifs <;> simpa [log] using ht
  · intro t _ ht
    unfold ck_handler
    simp only []
    split_ifs <;> simpa [log] using ht
  · intro ms h; exact absurd h he
  · intro ms _ _; simp [ck_timeout_cb, log]
  · intro ms _ _; simp [send_ck0_with_timeout, log]

/-- Once the overall timer is not pending, no event emits CONNECT_TIMEOUT. -/
theorem step_no_connect_timeout (e : event) (s : rtpclient) (h : s.connect_timer = none) :
    (step e s).connect_timer = none ∧
    (step e s).trace.count (effect.disconnect_event disconnect_reason_e.CONNECT_TIMEOUT) =
      s.trace.count (effect.disconnect_event disconnect_reason_e.CONNECT_TIMEOUT) := by
  apply step_inv (fun t => t.connect_timer = none ∧
    t.trace.count (effect.disconnect_event disconnect_reason_e.CONNECT_TIMEOUT) =
      s.trace.count (effect.disconnect_event disconnect_reason_e.CONNECT_TIMEOUT))
  · exact ⟨h, rfl⟩
  · intro status t _ ht
    unfold connected_handler
    split_ifs <;> simp [log, connected, send_ck0_with_timeout, ht.1, ht.2]
  · intro t _ ht
    unfold ck_handler
    simp only []
    split_ifs <;> simp [log, ht.1, ht.2]
  · intro ms _ h2; rw [h] at h2; cases h2
  · intro ms _ _; simp [ck_timeout_cb, log, h]
  · intro ms _ _; simp [send_ck0_with_timeout, log, h]

theorem run_nil (s : rtpclient) : run [] s = s := rfl

theorem run_cons (e : event) (es : List event) (s : rtpclient) :
    run (e :: es) s = run es (step e s) := rfl

theorem run_subs (es : List event) (hes : event.connect_timer_fired ∉ es) (s : rtpclient) :
    (run es s).connected_subs = s.connected_subs ∧ (run es s).conn_event = s.conn_event := by
  induction es generalizing s with
  | nil => exact ⟨rfl, rfl⟩
  | cons e es ih =>
    have he : e ≠ event.connect_timer_fired := fun h => hes (by simp [h])
    have hes2 : event.connect_timer_fired ∉ es := fun h => hes (by simp [h])
    rw [run_cons]
    obtain ⟨a1, a2⟩ := ih hes2 (step e s)
    obtain ⟨b1, b2⟩ := step_subs e he s
    exact ⟨a1.trans b1, a2.trans b2⟩

theorem run_connect_timer (es : List event) (hes : event.connect_timer_fired ∉ es)
    (hc : event.status_changed status_e.CONNECTED ∉ es) (s : rtpclient) :
    (run es s).connect_timer = s.connect_timer := by
  induction es generalizing s with
  | nil => rfl
  | cons e es ih =>
    have he : e ≠ event.connect_timer_fired := fun h => hes (by simp [h])
    have hes2 : event.connect_timer_fired ∉ es := fun h => hes (by simp [h])
    have hce : e ≠ event.status_changed status_e.CONNECTED := fun h => hc (by simp [h])
    have hc2 : event.status_changed status_e.CONNECTED ∉ es := fun h => hc (by simp [h])
    rw [run_cons, ih hes2 hc2, step_connect_timer e he hce]

theorem run_no_connect_timeout (es : List event) (s : rtpclient) (h : s.connect_timer = none) :
    (run es s).trace.count (effect.disconnect_event disconnect_reason_e.CONNECT_TIMEOUT) =
      s.trace.count (effect.disconnect_event disconnect_reason_e.CONNECT_TIMEOUT) := by
  induction es generalizing s with
  | nil => rfl
  | cons e es ih =>
    obtain ⟨a1, a2⟩ := step_no_connect_timeout e s h
    rw [run_cons, ih (step e s) a1, a2]

/-! ## Start of the handshake -/

theorem connect_to_of_establishes (sc : syscalls) (local_port : Int) (s : rtpclient)
    (hok : establishes sc local_port s = true) :
    connect_to sc local_port s =
      start_handshake sc
        (establish sc local_port { s with control_socket := -1, midi_socket := -1 }).1 := by
  unfold establishes at hok
  unfold connect_to
  simp only []
  split
  · rename_i s1 heq
    rw [heq] at hok
    simp at hok
  · rename_i s1 heq
    rw [heq]

theorem connect_to_of_not_establishes (sc : syscalls) (local_port : Int) (s : rtpclient)
    (hok : establishes sc local_port s = false) :
    connect_to sc local_port s =
      connect_to_catch sc
        (establish sc local_port { s with control_socket := -1, midi_socket := -1 }).1 := by
  unfold establishes at hok
  unfold connect_to
  simp only []
  split
  · rename_i s1 heq
    rw [heq]
  · rename_i s1 heq
    rw [heq] at hok
    simp at hok

/-- What a successful `connect_to` does besides setting up the sockets. -/
theorem connect_to_handshake (sc : syscalls) (local_port : Int) (s : rtpclient)
    (hok : establishes sc local_port s = true) :
    peer_calls (connect_to sc local_port s).trace =
      peer_calls s.trace ++
        [effect.connected_event_connect s.next_sub,
         effect.peer_connect_to port_e.CONTROL_PORT,
         effect.add_timer_event 20000 timer_cb.connect_timeout] ∧
    (connect_to sc local_port s).connected_subs = s.connected_subs ++ [s.next_sub] ∧
    (connect_to sc local_port s).conn_event = some s.next_sub ∧
    (connect_to sc local_port s).connect_timer = some 20000 := by
  rw [connect_to_of_establishes sc local_port s hok]
  obtain ⟨h1, h2⟩ :=
    establish_ctl sc local_port { s with control_socket := -1, midi_socket := -1 }
  generalize (establish sc local_port { s with control_socket := -1, midi_socket := -1 }).1 = s1
    at h1 h2
  simp only [ctl, Prod.mk.injEq] at h1
  obtain ⟨-, -, -, -, -, e6, e7, -⟩ := h1
  simp only [] at h2
  unfold start_handshake
  simp only []
  split_ifs <;> simp [log, peer_calls, effect.is_os, e6, e7] <;> simpa [peer_calls] using h2

theorem step_status_single (status : status_e) (s : rtpclient) (id : Nat)
    (h : s.connected_subs = [id]) :
    step (event.status_changed status) s = connected_handler status s := by
  simp [step, h]

theorem step_status_none (status : status_e) (s : rtpclient) (h : s.connected_subs = []) :
    step (event.status_changed status) s = s := by
  simp [step, h]

/-! ## Handshake orchestration and the overall timeout -/

theorem count_peer_calls (e : effect) (he : e.is_os = false) (t : List effect) :
    (peer_calls t).count e = t.count e := by
  unfold peer_calls
  exact List.count_filter (by simp [he])

theorem step_count_connect_timeout (e : event) (he : e ≠ event.connect_timer_fired)
    (s : rtpclient) :
    (step e s).trace.count (effect.disconnect_event disconnect_reason_e.CONNECT_TIMEOUT) =
      s.trace.count (effect.disconnect_event disconnect_reason_e.CONNECT_TIMEOUT) := by
  apply step_inv (fun t =>
    t.trace.count (effect.disconnect_event disconnect_reason_e.CONNECT_TIMEOUT) =
      s.trace.count (effect.disconnect_event disconnect_reason_e.CONNECT_TIMEOUT))
  · rfl
  · intro status t _ ht
    unfold connected_handler
    split_ifs <;> simp [log, connected, send_ck0_with_timeout, ht]
  · intro t _ ht
    unfold ck_handler
    simp only []
    split_ifs <;> simp [log, ht]
  · intro ms h; exact absurd h he
  · intro ms _ _; simp [ck_timeout_cb, log]
  · intro ms _ _; simp [send_ck0_with_timeout, log]

theorem run_count_connect_timeout (es : List event) (hes : event.connect_timer_fired ∉ es)
    (s : rtpclient) :
    (run es s).trace.count (effect.disconnect_event disconnect_reason_e.CONNECT_TIMEOUT) =
      s.trace.count (effect.disconnect_event disconnect_reason_e.CONNECT_TIMEOUT) := by
  induction es generalizing s with
  | nil => rfl
  | cons e es ih =>
    have he : e ≠ event.connect_timer_fired := fun h => hes (by simp [h])
    have hes2 : event.connect_timer_fired ∉ es := fun h => hes (by simp [h])
    rw [run_cons, ih hes2, step_count_connect_timeout e he]

theorem run_after_timeout (post : List event)
    (hpost : ∀ e ∈ post, e = event.connect_timer_fired ∨ ∃ status, e = event.status_changed status)
    (s : rtpclient) (h1 : s.connected_subs = []) (h2 : s.connect_timer = none) :
    run post s = s := by
  induction post with
  | nil => rfl
  | cons e es ih =>
    have hstep : step e s = s := by
      rcases hpost e (by simp) with h | ⟨status, h⟩
      · subst h; simp [step, h2]
      · subst h; exact step_status_none status s h1
    rw [run_cons, hstep]
    exact ih (fun e he => hpost e (by simp [he]))

/-- C9 (amended, handshake orchestration): a successful `connect_to` on a session
without a status subscription left from an earlier attempt (a freshly
constructed session, or one whose subscription `reset()` revoked) issues,
towards the peer and
the timers, exactly: subscribe to status changes, initiate the handshake on
the control channel, arm the 20 s timer. As long as the overall timer has not
expired (so the subscription is held), a CONTROL_CONNECTED status makes the
session issue one initiate-handshake on the MIDI channel and nothing else; a
CONNECTED status makes it cancel `connect_timer`, connect the latency-reply
handler, send one latency probe and arm the 5 s reply deadline; any other
status leaves the state, trace included, unchanged. -/
theorem handshake_orchestration (sc : syscalls) (local_port : Int) (s0 : rtpclient)
    (h0 : s0.connected_subs = []) (hok : establishes sc local_port s0 = true)
    (es : List event) (hes : event.connect_timer_fired ∉ es) :
    (peer_calls (connect_to sc local_port s0).trace =
      peer_calls s0.trace ++
        [effect.connected_event_connect s0.next_sub,
         effect.peer_connect_to port_e.CONTROL_PORT,
         effect.add_timer_event 20000 timer_cb.connect_timeout] ∧
     (connect_to sc local_port s0).connect_timer = some 20000) ∧
    step (event.status_changed status_e.CONTROL_CONNECTED) (run es (connect_to sc local_port s0)) =
      { run es (connect_to sc local_port s0) with
        trace := (run es (connect_to sc local_port s0)).trace ++
          [effect.peer_connect_to port_e.MIDI_PORT] } ∧
    step (event.status_changed status_e.CONNECTED) (run es (connect_to sc local_port s0)) =
      { run es (connect_to sc local_port s0) with
        connect_timer := none
        ck_subs := (run es (connect_to sc local_port s0)).ck_subs + 1
        ck_timeout := some 5000
        trace := (run es (connect_to sc local_port s0)).trace ++
          [effect.timer_disable timer_handle.connect_timer,
           effect.ck_event_connect,
           effect.peer_send_ck0,
           effect.add_timer_event 5000 timer_cb.ck_timeout] } ∧
    ∀ status, status ≠ status_e.CONTROL_CONNECTED → status ≠ status_e.CONNECTED →
      step (event.status_changed status) (run es (connect_to sc local_port s0)) =
        run es (connect_to sc local_port s0) := by
  obtain ⟨c1, c2, c3, c4⟩ := connect_to_handshake sc local_port s0 hok
  rw [h0, List.nil_append] at c2
  obtain ⟨r1, -⟩ := run_subs es hes (connect_to sc local_port s0)
  rw [c2] at r1
  refine ⟨⟨c1, c4⟩, ?_, ?_, ?_⟩
  · rw [step_status_single _ _ _ r1]
    simp [connected_handler, log]
  · rw [step_status_single _ _ _ r1]
    simp [connected_handler, connected, send_ck0_with_timeout, log]
  · intro status n1 n2
    rw [step_status_single _ _ _ r1]
    simp [connected_handler, n1, n2]

/-- C6 (amended, connect timeout): after a successful `connect_to` on a session
without a status subscription left from an earlier attempt (a freshly
constructed session, or one whose subscription `reset()` revoked), let events be
delivered among
which neither CONNECTED nor the expiry of the overall timer occurs. If the
timer then expires, its callback revokes the status subscription and emits
CONNECT_TIMEOUT, once in the whole attempt, and no later status change or
timer expiry alters the state or issues any call. If instead CONNECTED is
reported, the timer is no longer pending and, whatever events follow, no
CONNECT_TIMEOUT is emitted for the attempt. -/
theorem connect_timeout_exactly_once (sc : syscalls) (local_port : Int) (s0 : rtpclient)
    (h0 : s0.connected_subs = []) (hok : establishes sc local_port s0 = true)
    (pre : List event) (hpre : event.connect_timer_fired ∉ pre)
    (hnc : event.status_changed status_e.CONNECTED ∉ pre) :
    ((step event.connect_timer_fired (run pre (connect_to sc local_port s0))).trace =
        (run pre (connect_to sc local_port s0)).trace ++
          [effect.connected_event_disconnect s0.next_sub,
           effect.disconnect_event disconnect_reason_e.CONNECT_TIMEOUT] ∧
     (step event.connect_timer_fired (run pre (connect_to sc local_port s0))).connected_subs = [] ∧
     (step event.connect_timer_fired (run pre (connect_to sc local_port s0))).trace.count
          (effect.disconnect_event disconnect_reason_e.CONNECT_TIMEOUT) =
        s0.trace.count (effect.disconnect_event disconnect_reason_e.CONNECT_TIMEOUT) + 1 ∧
     ∀ post : List event,
       (∀ e ∈ post, e = event.connect_timer_fired ∨ ∃ status, e = event.status_changed status) →
       run post (step event.connect_timer_fired (run pre (connect_to sc local_port s0))) =
         step event.connect_timer_fired (run pre (connect_to sc local_port s0))) ∧
    ((step (event.status_changed status_e.CONNECTED)
        (run pre (connect_to sc local_port s0))).connect_timer = none ∧
     ∀ es : List event,
       (run es (step (event.status_changed status_e.CONNECTED)
          (run pre (connect_to sc local_port s0)))).trace.count
          (effect.disconnect_event disconnect_reason_e.CONNECT_TIMEOUT) =
        s0.trace.count (effect.disconnect_event disconnect_reason_e.CONNECT_TIMEOUT)) := by
  obtain ⟨c1, c2, c3, c4⟩ := connect_to_handshake sc local_port s0 hok
  rw [h0, List.nil_append] at c2
  obtain ⟨r1, r2⟩ := run_subs pre hpre (connect_to sc local_port s0)
  have r3 := run_connect_timer pre hpre hnc (connect_to sc local_port s0)
  have r4 := run_count_connect_timeout pre hpre (connect_to sc local_port s0)
  have c5 : (connect_to sc local_port s0).trace.count
      (effect.disconnect_event disconnect_reason_e.CONNECT_TIMEOUT) =
      s0.trace.count (effect.disconnect_event disconnect_reason_e.CONNECT_TIMEOUT) := by
    have hos : (effect.disconnect_event disconnect_reason_e.CONNECT_TIMEOUT).is_os = false := rfl
    rw [← count_peer_calls _ hos, c1, List.count_append, count_peer_calls _ hos]
    simp
  rw [c2] at r1
  rw [c3] at r2
  rw [c4] at r3
  rw [c5] at r4
  generalize run pre (connect_to sc local_port s0) = s at r1 r2 r3 r4 ⊢
  have f1 : step event.connect_timer_fired s =
      { s with connect_timer := none
               connected_subs := []
               trace := s.trace ++ [effect.connected_event_disconnect s0.next_sub,
                 effect.disconnect_event disconnect_reason_e.CONNECT_TIMEOUT] } := by
    simp [step, r3, connect_timeout_cb, r2, r1, log]
  have f2 : step (event.status_changed status_e.CONNECTED) s = connected s := by
    rw [step_status_single _ _ _ r1]
    simp [connected_handler]
  refine ⟨⟨?_, ?_, ?_, ?_⟩, ?_, ?_⟩
  · rw [f1]
  · rw [f1]
  · rw [f1]
    simp [r4]
  · intro post hpost
    apply run_after_timeout post hpost
    · rw [f1]
    · rw [f1]
  · rw [f2]
    simp [connected, send_ck0_with_timeout, log]
  · intro es
    rw [f2, run_no_connect_timeout es (connected s)
      (by simp [connected, send_ck0_with_timeout, log])]
    simp [connected, send_ck0_with_timeout, log, r4]

/-! ## Port pairing -/

theorem try_candidate_break (local_port : Int) (c : control_try) (s s1 : rtpclient)
    (h : try_candidate local_port c s = (s1, cand_exit.break_)) :
    ∃ pre, s1.trace = pre ++ [effect.sys_connect s1.control_socket c.ai_addr] := by
  unfold try_candidate at h
  simp only [] at h
  split_ifs at h <;> simp only [Prod.mk.injEq, reduceCtorEq, and_false] at h
  all_goals
    obtain ⟨h, -⟩ := h
    subst h
    simp only [log, os_socket]
    exact ⟨_, rfl⟩

theorem candidate_loop_break (local_port : Int) (l : List control_try) (s s1 : rtpclient)
    (c : control_try) (h : candidate_loop local_port l s = (s1, loop_exit.brk c)) :
    c ∈ l ∧ ∃ pre, s1.trace = pre ++ [effect.sys_connect s1.control_socket c.ai_addr] := by
  induction l generalizing s with
  | nil => simp [candidate_loop] at h
  | cons d rest ih =>
    unfold candidate_loop at h
    split at h
    · rename_i s2 heq
      obtain ⟨i1, i2⟩ := ih s2 h
      exact ⟨List.mem_cons_of_mem _ i1, i2⟩
    · rename_i s2 heq
      simp only [Prod.mk.injEq, loop_exit.brk.injEq] at h
      obtain ⟨h1, h2⟩ := h
      subst h1 h2
      exact ⟨List.mem_cons_self _ _, try_candidate_break local_port d s s2 heq⟩
    · simp at h

theorem htons_val (x : Int) : ntohs (htons x) = x % 65536 := by
  unfold ntohs htons
  simp only []
  omega

/-- Port pairing, stated on the `try` block of `connect_to`. -/
theorem establish_ports (sc : syscalls) (local_port : Int) (s s2 : rtpclient)
    (h : establish sc local_port s = (s2, false)) :
    ¬ sc.getaddrinfo_res < 0 ∧
    ∃ (c : control_try) (pre : List effect),
      c ∈ sc.sockaddress_list ∧
      s2.local_base_port = ntohs sc.getsockname_port ∧
      s2.remote_base_port = ntohs c.ai_addr.port ∧
      s2.control_addr = c.ai_addr ∧
      s2.midi_addr = { host := c.ai_addr.host, port := htons (s2.remote_base_port + 1) } ∧
      s2.trace = pre ++
        [effect.sys_connect s2.control_socket c.ai_addr,
         effect.add_fd_in s2.control_socket port_e.CONTROL_PORT,
         effect.sys_socket s2.midi_socket,
         effect.sys_setsockopt s2.midi_socket,
         effect.sys_bind s2.midi_socket (htons (s2.local_base_port + 1)),
         effect.sys_connect s2.midi_socket s2.midi_addr,
         effect.add_fd_in s2.midi_socket port_e.MIDI_PORT] ∧
      ntohs (htons (s2.local_base_port + 1)) = (s2.local_base_port + 1) % 65536 ∧
      ntohs s2.midi_addr.port = (s2.remote_base_port + 1) % 65536 ∧
      (s2.local_base_port < 65535 →
        ntohs (htons (s2.local_base_port + 1)) = s2.local_base_port + 1) ∧
      (s2.remote_base_port < 65535 → ntohs s2.midi_addr.port = s2.remote_base_port + 1) := by
  unfold establish at h
  split_ifs at h
  · simp at h
  · split at h
    · simp at h
    · simp at h
    · rename_i s1 c heq
      obtain ⟨hc, pre, hpre⟩ := candidate_loop_break local_port _ s s1 c heq
      refine ⟨by assumption, c, pre, hc, ?_⟩
      unfold midi_phase at h
      simp only [] at h
      split_ifs at h <;> simp only [Prod.mk.injEq, Bool.true_eq_false, and_false] at h
      obtain ⟨h, -⟩ := h
      subst h
      have hl : (0 : Int) ≤ ntohs sc.getsockname_port ∧ ntohs sc.getsockname_port < 65536 := by
        unfold ntohs; omega
      have hr : (0 : Int) ≤ ntohs c.ai_addr.port ∧ ntohs c.ai_addr.port < 65536 := by
        unfold ntohs; omega
      simp only [log, os_socket, poller_add_fd_in, hpre, htons_val, List.append_assoc,
        List.cons_append, List.nil_append, true_and]
      refine ⟨?_, ?_⟩
      · intro hlt; omega
      · intro hlt; omega


theorem start_handshake_eq (sc : syscalls) (s : rtpclient)
    (h : sc.getaddrinfo_res ≥ 0 ∧ sc.sockaddress_list ≠ []) :
    start_handshake sc s =
      { s with
        conn_event := some s.next_sub
        connected_subs := s.connected_subs ++ [s.next_sub]
        next_sub := s.next_sub + 1
        connect_timer := some 20000
        trace := s.trace ++
          [effect.freeaddrinfo,
           effect.connected_event_connect s.next_sub,
           effect.peer_connect_to port_e.CONTROL_PORT,
           effect.add_timer_event 20000 timer_cb.connect_timeout] } := by
  unfold start_handshake
  rw [if_pos h]
  simp [log]

/-- C3 (amended, port pairing): in every successful `connect_to`, with `P` the
local port read from the control socket (`local_base_port`) and `R` the remote
port of the candidate that connected (`remote_base_port`), `control_addr` is
the candidate's address with port `R`, `bind` on the data socket is called with
local port `(P + 1) mod 65536` and `connect` on it with the candidate's host at
port `(R + 1) mod 65536`, which is also `midi_addr`; the ports so requested are
`P + 1` and `R + 1` whenever `P < 65535` and `R < 65535`. -/
theorem port_pairing_mod (sc : syscalls) (local_port : Int) (s : rtpclient)
    (hok : establishes sc local_port s = true) :
    ∃ (c : control_try) (pre : List effect),
      c ∈ sc.sockaddress_list ∧
      (connect_to sc local_port s).local_base_port = ntohs sc.getsockname_port ∧
      (connect_to sc local_port s).remote_base_port = ntohs c.ai_addr.port ∧
      (connect_to sc local_port s).control_addr = c.ai_addr ∧
      (connect_to sc local_port s).midi_addr =
        { host := c.ai_addr.host,
          port := htons ((connect_to sc local_port s).remote_base_port + 1) } ∧
      (connect_to sc local_port s).trace = pre ++
        [effect.sys_connect (connect_to sc local_port s).control_socket c.ai_addr,
         effect.add_fd_in (connect_to sc local_port s).control_socket port_e.CONTROL_PORT,
         effect.sys_socket (connect_to sc local_port s).midi_socket,
         effect.sys_setsockopt (connect_to sc local_port s).midi_socket,
         effect.sys_bind (connect_to sc local_port s).midi_socket
           (htons ((connect_to sc local_port s).local_base_port + 1)),
         effect.sys_connect (connect_to sc local_port s).midi_socket
           (connect_to sc local_port s).midi_addr,
         effect.add_fd_in (connect_to sc local_port s).midi_socket port_e.MIDI_PORT,
         effect.freeaddrinfo,
         effect.connected_event_connect s.next_sub,
         effect.peer_connect_to port_e.CONTROL_PORT,
         effect.add_timer_event 20000 timer_cb.connect_timeout] ∧
      ntohs (htons ((connect_to sc local_port s).local_base_port + 1)) =
        ((connect_to sc local_port s).local_base_port + 1) % 65536 ∧
      ntohs (connect_to sc local_port s).midi_addr.port =
        ((connect_to sc local_port s).remote_base_port + 1) % 65536 ∧
      ((connect_to sc local_port s).local_base_port < 65535 →
        ntohs (htons ((connect_to sc local_port s).local_base_port + 1)) =
          (connect_to sc local_port s).local_base_port + 1) ∧
      ((connect_to sc local_port s).remote_base_port < 65535 →
        ntohs (connect_to sc local_port s).midi_addr.port =
          (connect_to sc local_port s).remote_base_port + 1) := by
  rw [connect_to_of_establishes sc local_port s hok]
  have hfalse :
      (establish sc local_port { s with control_socket := -1, midi_socket := -1 }).2 = false := by
    unfold establishes at hok
    simpa using hok
  obtain ⟨hctl, -⟩ :=
    establish_ctl sc local_port { s with control_socket := -1, midi_socket := -1 }
  have hpair : establish sc local_port { s with control_socket := -1, midi_socket := -1 } =
      ((establish sc local_port { s with control_socket := -1, midi_socket := -1 }).1, false) := by
    rw [← hfalse]
  obtain ⟨hres, c, pre, p1, p2, p3, p4, p5, p6, p7, p8, p9, p10⟩ :=
    establish_ports sc local_port _ _ hpair
  generalize (establish sc local_port { s with control_socket := -1, midi_socket := -1 }).1 = s1
    at hctl p2 p3 p4 p5 p6 p7 p8 p9 p10
  simp only [ctl, Prod.mk.injEq] at hctl
  obtain ⟨-, -, -, -, -, -, e7, -⟩ := hctl
  have hne : sc.sockaddress_list ≠ [] := List.ne_nil_of_mem p1
  have hcond : sc.getaddrinfo_res ≥ 0 ∧ sc.sockaddress_list ≠ [] := ⟨by omega, hne⟩
  refine ⟨c, pre, p1, ?_⟩
  rw [start_handshake_eq sc s1 hcond]
  simp only [e7, p6, List.append_assoc, List.cons_append, List.nil_append, true_and]
  exact ⟨p2, p3, p4, p5, p7, p8, p9, p10⟩

/-! ## `reset` -/

theorem reset_eq (s : rtpclient) :
    reset s =
      log effect.peer_reset
        (reset_control_socket
          (reset_midi_socket
            { reset_conn_event
                { log (effect.timer_disable timer_handle.connect_timer)
                    { s with timerstate := 0 } with connect_timer := none } with
              remote_base_port := 0 })) := rfl

theorem connect_to_catch_eq (sc : syscalls) (s : rtpclient) :
    connect_to_catch sc s =
      log (effect.disconnect_event disconnect_reason_e.CANT_CONNECT)
        (if sc.getaddrinfo_res ≥ 0 ∧ sc.sockaddress_list ≠ [] then
          log effect.freeaddrinfo (catch_midi_socket (catch_control_socket s))
         else catch_midi_socket (catch_control_socket s)) := rfl

theorem reset_fields (s : rtpclient) :
    (reset s).connect_timer = none ∧
    (reset s).conn_event = none ∧
    (reset s).connected_subs =
      (match s.conn_event with
       | some id => s.connected_subs.erase id
       | none => s.connected_subs) ∧
    (reset s).timerstate = 0 ∧
    (reset s).remote_base_port = 0 ∧
    (reset s).ck_timeout = s.ck_timeout ∧
    (reset s).timer_ck = s.timer_ck ∧
    (reset s).ck_subs = s.ck_subs := by
  rw [reset_eq]
  unfold reset_control_socket reset_midi_socket reset_conn_event
  cases hce : s.conn_event <;> simp only [log, os_close, poller_remove_fd, hce] <;>
    split_ifs <;> simp

/-- A session that holds at most the subscription named by `conn_event` holds no
status subscription after `reset()`, which is what `connect_to` needs to start
an attempt of its own. -/
theorem reset_revokes_subscription (s : rtpclient)
    (h : s.connected_subs = [] ∨ ∃ id, s.conn_event = some id ∧ s.connected_subs = [id]) :
    (reset s).connected_subs = [] := by
  obtain ⟨-, -, f3, -⟩ := reset_fields s
  rw [f3]
  rcases h with h | ⟨id, h1, h2⟩
  · cases hce : s.conn_event <;> simp [h]
  · simp [h1, h2]

theorem reset_closes (s : rtpclient) (h : sockets_tracked s) :
    (reset s).open_fds = [] ∧ (reset s).poller_fds = [] := by
  obtain ⟨hp, ho⟩ := h
  rw [reset_eq]
  have e1 : ∀ t : rtpclient, t.open_fds = [] → t.poller_fds = [] →
      (reset_control_socket (reset_midi_socket t)).open_fds = [] ∧
      (reset_control_socket (reset_midi_socket t)).poller_fds = [] := by
    intro t h1 h2
    unfold reset_control_socket reset_midi_socket
    simp only [log, os_close, poller_remove_fd]
    split_ifs <;> simp [h1, h2]
  have e2 : ∀ t : rtpclient, t.open_fds = [t.control_socket, t.midi_socket] →
      t.poller_fds = [t.control_socket, t.midi_socket] → 0 ≤ t.control_socket →
      0 ≤ t.midi_socket →
      (reset_control_socket (reset_midi_socket t)).open_fds = [] ∧
      (reset_control_socket (reset_midi_socket t)).poller_fds = [] := by
    intro t h1 h2 h3 h4
    unfold reset_control_socket reset_midi_socket
    simp only [log, os_close, poller_remove_fd, ge_iff_le, h3, h4, if_true, h1, h2]
    by_cases hcm : t.control_socket = t.midi_socket
    · simp [hcm]
    · simp [hcm, List.erase_cons]
  have e3 : ∀ t : rtpclient, (log effect.peer_reset t).open_fds = t.open_fds ∧
      (log effect.peer_reset t).poller_fds = t.poller_fds := fun t => ⟨rfl, rfl⟩
  rw [(e3 _).1, (e3 _).2]
  rcases ho with ho | ⟨ho, hc, hm⟩
  · apply e1
    · unfold reset_conn_event
      cases hce : s.conn_event <;> simp [log, hce, ho]
    · unfold reset_conn_event
      cases hce : s.conn_event <;> simp [log, hce, ho, hp]
  · apply e2
    · unfold reset_conn_event
      cases hce : s.conn_event <;> simp [log, hce, ho]
    · unfold reset_conn_event
      cases hce : s.conn_event <;> simp [log, hce, ho, hp]
    · unfold reset_conn_event
      cases hce : s.conn_event <;> simp [log, hce, hc]
    · unfold reset_conn_event
      cases hce : s.conn_event <;> simp [log, hce, hm]

/-! ## Socket bookkeeping across `connect_to` and `reset` -/

theorem socket_ret_pos (r : Option Nat) (h : r ≠ some 0) :
    socket_ret r ≤ 0 ↔ r = none := by
  cases r with
  | none => simp [socket_ret]
  | some fd =>
    have : fd ≠ 0 := fun h0 => h (by rw [h0])
    simp only [socket_ret, reduceCtorEq, iff_false]
    omega

theorem try_candidate_sockets (local_port : Int) (c : control_try) (s : rtpclient)
    (ho : s.open_fds = []) (hp : s.poller_fds = []) (hz : c.socket_ret ≠ some 0) :
    (try_candidate local_port c s).1.poller_fds = [] ∧
    (try_candidate local_port c s).1.midi_socket = s.midi_socket ∧
    ((try_candidate local_port c s).2 = cand_exit.continue_ →
      (try_candidate local_port c s).1.open_fds = []) ∧
    ((try_candidate local_port c s).2 = cand_exit.throw_ →
      (try_candidate local_port c s).1.open_fds = []) ∧
    ((try_candidate local_port c s).2 = cand_exit.break_ →
      (try_candidate local_port c s).1.open_fds = [(try_candidate local_port c s).1.control_socket] ∧
      0 ≤ (try_candidate local_port c s).1.control_socket) := by
  have hz2 := socket_ret_pos c.socket_ret hz
  unfold try_candidate
  simp only []
  cases hr : c.socket_ret with
  | none => simp [socket_ret, os_socket, log, ho, hp]
  | some fd =>
    rw [hr] at hz2
    have hpos : ¬ socket_ret (some fd) ≤ 0 := by simpa using hz2
    have hfd : ((fd : Nat) : Int) = socket_ret (some fd) := rfl
    simp only [os_socket, log, os_close, ho, hp, hpos, if_false, List.nil_append]
    split_ifs <;> simp [hfd]
    all_goals first | contradiction | omega


theorem candidate_loop_sockets (local_port : Int) (l : List control_try) (s : rtpclient)
    (ho : s.open_fds = []) (hp : s.poller_fds = [])
    (hz : ∀ c ∈ l, c.socket_ret ≠ some 0) :
    (candidate_loop local_port l s).1.poller_fds = [] ∧
    (candidate_loop local_port l s).1.midi_socket = s.midi_socket ∧
    ((candidate_loop local_port l s).2 = loop_exit.finished →
      (candidate_loop local_port l s).1.open_fds = []) ∧
    ((candidate_loop local_port l s).2 = loop_exit.threw →
      (candidate_loop local_port l s).1.open_fds = []) ∧
    (∀ c, (candidate_loop local_port l s).2 = loop_exit.brk c →
      (candidate_loop local_port l s).1.open_fds =
        [(candidate_loop local_port l s).1.control_socket] ∧
      0 ≤ (candidate_loop local_port l s).1.control_socket) := by
  induction l generalizing s with
  | nil => simp [candidate_loop, ho, hp]
  | cons d rest ih =>
    obtain ⟨t1, t2, t3, t4, t5⟩ :=
      try_candidate_sockets local_port d s ho hp (hz d (List.mem_cons_self _ _))
    unfold candidate_loop
    split
    · rename_i s1 heq
      rw [heq] at t1 t2 t3
      obtain ⟨i1, i2, i3, i4, i5⟩ :=
        ih s1 (t3 rfl) t1 (fun c hc => hz c (List.mem_cons_of_mem _ hc))
      exact ⟨i1, i2.trans t2, i3, i4, i5⟩
    · rename_i s1 heq
      rw [heq] at t1 t2 t5
      refine ⟨t1, t2, ?_, ?_, ?_⟩
      · intro h; cases h
      · intro h; cases h
      · intro c _; exact t5 rfl
    · rename_i s1 heq
      rw [heq] at t1 t2 t4
      refine ⟨t1, t2, ?_, ?_, ?_⟩
      · intro h; cases h
      · intro _; exact t4 rfl
      · intro c h; cases h

/-- The states in which the `try` block of `connect_to` can be left by an
exception, as far as sockets are concerned. -/
theorem catch_closes (s : rtpclient)
    (h : (s.open_fds = [] ∧ s.poller_fds = []) ∨
      (s.open_fds = [s.control_socket] ∧ s.poller_fds = [s.control_socket] ∧
        0 ≤ s.control_socket ∧ s.midi_socket < 0) ∨
      (s.open_fds = [s.control_socket, s.midi_socket] ∧ s.poller_fds = [s.control_socket] ∧
        0 ≤ s.control_socket ∧ 0 ≤ s.midi_socket)) :
    (catch_midi_socket (catch_control_socket s)).open_fds = [] ∧
    (catch_midi_socket (catch_control_socket s)).poller_fds = [] := by
  unfold catch_midi_socket catch_control_socket
  simp only [log, os_close, poller_remove_fd]
  rcases h with ⟨h1, h2⟩ | ⟨h1, h2, h3, h4⟩ | ⟨h1, h2, h3, h4⟩
  · split_ifs <;> simp [h1, h2]
  · have : ¬ s.midi_socket ≥ 0 := by omega
    simp [h1, h2, h3, this]
  · simp [h1, h2, h3, h4]

theorem midi_phase_sockets (sc : syscalls) (c : control_try) (s : rtpclient)
    (ho : s.open_fds = [s.control_socket]) (hp : s.poller_fds = []) (hc : 0 ≤ s.control_socket) :
    ((midi_phase sc c s).2 = false → sockets_tracked (midi_phase sc c s).1 ∧
      (midi_phase sc c s).1.open_fds.length = 2) ∧
    ((midi_phase sc c s).2 = true →
      (catch_midi_socket (catch_control_socket (midi_phase sc c s).1)).open_fds = [] ∧
      (catch_midi_socket (catch_control_socket (midi_phase sc c s).1)).poller_fds = []) := by
  constructor
  · unfold midi_phase sockets_tracked
    simp only []
    cases hr : sc.midi_socket_ret with
    | none => simp [socket_ret, os_socket, log, poller_add_fd_in]
    | some fd =>
      simp only [socket_ret, os_socket, log, poller_add_fd_in, ho, hp]
      split_ifs <;> simp [hc]
  · intro hthrow
    apply catch_closes
    revert hthrow
    unfold midi_phase
    simp only []
    cases hr : sc.midi_socket_ret with
    | none => simp [socket_ret, os_socket, log, poller_add_fd_in, ho, hp, hc]
    | some fd =>
      simp only [socket_ret, os_socket, log, poller_add_fd_in, ho, hp]
      split_ifs <;> simp [hc]

theorem establish_sockets (sc : syscalls) (local_port : Int) (s : rtpclient)
    (ho : s.open_fds = []) (hp : s.poller_fds = [])
    (hz : ∀ c ∈ sc.sockaddress_list, c.socket_ret ≠ some 0) :
    ((establish sc local_port s).2 = false → sockets_tracked (establish sc local_port s).1) ∧
    ((establish sc local_port s).2 = true →
      (catch_midi_socket (catch_control_socket (establish sc local_port s).1)).open_fds = [] ∧
      (catch_midi_socket (catch_control_socket (establish sc local_port s).1)).poller_fds = []) := by
  unfold establish
  split_ifs
  · exact ⟨fun h => (by cases h), fun _ => catch_closes s (Or.inl ⟨ho, hp⟩)⟩
  · obtain ⟨l1, l2, l3, l4, l5⟩ :=
      candidate_loop_sockets local_port sc.sockaddress_list s ho hp hz
    split
    · rename_i s1 heq
      rw [heq] at l1 l4
      exact ⟨fun h => (by cases h), fun _ => catch_closes s1 (Or.inl ⟨l4 rfl, l1⟩)⟩
    · rename_i s1 heq
      rw [heq] at l1 l3
      exact ⟨fun h => (by cases h),
        fun _ => catch_closes { s1 with control_socket := 0 } (Or.inl ⟨l3 rfl, l1⟩)⟩
    · rename_i s1 c heq
      rw [heq] at l1 l5
      obtain ⟨o1, o2⟩ := l5 c rfl
      obtain ⟨m1, m2⟩ := midi_phase_sockets sc c s1 o1 l1 o2
      exact ⟨fun h => (m1 h).1, m2⟩

theorem start_handshake_sockets (sc : syscalls) (s : rtpclient) (h : sockets_tracked s) :
    sockets_tracked (start_handshake sc s) := by
  unfold sockets_tracked at h ⊢
  unfold start_handshake
  simp only []
  split_ifs <;> simpa [log] using h

theorem connect_to_sockets (sc : syscalls) (local_port : Int) (s : rtpclient)
    (ho : s.open_fds = []) (hp : s.poller_fds = [])
    (hz : ∀ c ∈ sc.sockaddress_list, c.socket_ret ≠ some 0) :
    sockets_tracked (connect_to sc local_port s) := by
  obtain ⟨e1, e2⟩ :=
    establish_sockets sc local_port { s with control_socket := -1, midi_socket := -1 } ho hp hz
  cases hok : establishes sc local_port s with
  | true =>
    rw [connect_to_of_establishes sc local_port s hok]
    apply start_handshake_sockets
    apply e1
    unfold establishes at hok
    simpa using hok
  | false =>
    rw [connect_to_of_not_establishes sc local_port s hok, connect_to_catch_eq]
    unfold establishes at hok
    obtain ⟨c1, c2⟩ := e2 (by simpa using hok)
    unfold sockets_tracked
    split_ifs <;> simp [log, c1, c2]

theorem reset_sockets (s : rtpclient) (h : sockets_tracked s) : sockets_tracked (reset s) := by
  obtain ⟨r1, r2⟩ := reset_closes s h
  exact ⟨r2.trans r1.symm, Or.inl r1⟩

theorem history_sockets (ops : List op) (s : rtpclient) (hs : sockets_tracked s)
    (hg : connects_when_closed ops s = true) :
    ∀ t ∈ history ops s, sockets_tracked t := by
  induction ops generalizing s with
  | nil => intro t ht; simp [history] at ht
  | cons o rest ih =>
    cases o with
    | reset =>
      simp only [connects_when_closed] at hg
      intro t ht
      simp only [history, apply_op, List.mem_cons] at ht
      rcases ht with ht | ht
      · rw [ht]; exact reset_sockets s hs
      · exact ih (reset s) (reset_sockets s hs) hg t ht
    | connect_to sc local_port =>
      simp only [connects_when_closed, Bool.and_eq_true, List.isEmpty_iff, List.all_eq_true,
        bne_iff_ne, ne_eq] at hg
      obtain ⟨⟨g1, g2⟩, g3⟩ := hg
      have hp : s.poller_fds = [] := by rw [hs.1, g1]
      have hc := connect_to_sockets sc local_port s g1 hp g2
      intro t ht
      simp only [history, apply_op, List.mem_cons] at ht
      rcases ht with ht | ht
      · rw [ht]; exact hc
      · exact ih (connect_to sc local_port s) hc g3 t ht

theorem sockets_tracked_count (s : rtpclient) (h : sockets_tracked s) :
    (s.open_fds.length = 0 ∨ s.open_fds.length = 2) ∧ s.poller_fds = s.open_fds := by
  obtain ⟨h1, h2⟩ := h
  refine ⟨?_, h1⟩
  rcases h2 with h2 | ⟨h2, -, -⟩
  · left; rw [h2]; rfl
  · right; rw [h2]; rfl

/-! ### Order of deregistration and close -/

theorem replay_append (a b : List effect) : replay (a ++ b) = b.foldl track (replay a) := by
  simp [replay, List.foldl_append]

theorem track_ok (t : fd_tables) (e : effect) (h : (track t e).ok = true) :
    t.ok = true ∧ ∀ fd ∈ (track t e).poller_fds, fd ∈ (track t e).open_fds := by
  unfold track at h ⊢
  simp only [Bool.and_eq_true, List.all_eq_true, decide_eq_true_eq] at h
  exact ⟨h.1, h.2⟩

theorem foldl_track_ok (l : List effect) (t : fd_tables) (h : (l.foldl track t).ok = true) :
    t.ok = true := by
  induction l generalizing t with
  | nil => simpa using h
  | cons e l ih => exact (track_ok t e (ih (track t e) h)).1

/-- A trace whose replay is `ok` kept every registered descriptor open after each
of its calls. -/
theorem replay_ok_prefix (tr : List effect) (h : (replay tr).ok = true) :
    ∀ p, p <+: tr → ∀ fd ∈ (replay p).poller_fds, fd ∈ (replay p).open_fds := by
  intro p hp
  obtain ⟨q, rfl⟩ := hp
  rw [replay_append] at h
  have hpok := foldl_track_ok q (replay p) h
  rcases List.eq_nil_or_concat p with hnil | ⟨p1, e, rfl⟩
  · subst hnil
    intro fd hfd
    simp [replay] at hfd
  · rw [List.concat_eq_append, replay_append] at hpok ⊢
    simp only [List.foldl_cons, List.foldl_nil] at hpok ⊢
    exact (track_ok _ e hpok).2

theorem try_candidate_consistent (local_port : Int) (c : control_try) (s : rtpclient)
    (ho : s.open_fds = []) (hp : s.poller_fds = []) (hz : c.socket_ret ≠ some 0)
    (hk : consistent s) :
    consistent (try_candidate local_port c s).1 := by
  have hz2 := socket_ret_pos c.socket_ret hz
  unfold consistent at hk ⊢
  rw [ho, hp] at hk
  unfold try_candidate
  simp only []
  cases hr : c.socket_ret with
  | none => simp [socket_ret, os_socket, log, ho, hp, replay_append, hk, track]
  | some fd =>
    rw [hr] at hz2
    have hpos : ¬ socket_ret (some fd) ≤ 0 := by simpa using hz2
    have hge : socket_ret (some fd) ≥ 0 := by omega
    simp only [os_socket, log, os_close, ho, hp, hpos, if_false, List.nil_append]
    split_ifs <;> simp [replay_append, hk, track, hge]
    all_goals first | rfl | contradiction

theorem candidate_loop_consistent (local_port : Int) (l : List control_try) (s : rtpclient)
    (ho : s.open_fds = []) (hp : s.poller_fds = [])
    (hz : ∀ c ∈ l, c.socket_ret ≠ some 0) (hk : consistent s) :
    consistent (candidate_loop local_port l s).1 := by
  induction l generalizing s with
  | nil => simpa [candidate_loop] using hk
  | cons d rest ih =>
    have hd := hz d (List.mem_cons_self _ _)
    obtain ⟨t1, -, t3, -, -⟩ := try_candidate_sockets local_port d s ho hp hd
    have tk := try_candidate_consistent local_port d s ho hp hd hk
    unfold candidate_loop
    split
    · rename_i s1 heq
      rw [heq] at t1 t3 tk
      exact ih s1 (t3 rfl) t1 (fun c hc => hz c (List.mem_cons_of_mem _ hc)) tk
    · rename_i s1 heq
      rw [heq] at tk
      exact tk
    · rename_i s1 heq
      rw [heq] at tk
      exact tk

theorem midi_phase_consistent (sc : syscalls) (c : control_try) (s : rtpclient)
    (ho : s.open_fds = [s.control_socket]) (hp : s.poller_fds = []) (hc : 0 ≤ s.control_socket)
    (hk : consistent s) :
    consistent (midi_phase sc c s).1 ∧
    ((midi_phase sc c s).2 = true → throw_shape (midi_phase sc c s).1) := by
  unfold consistent at hk ⊢
  rw [ho, hp] at hk
  unfold midi_phase throw_shape
  simp only []
  cases hr : sc.midi_socket_ret with
  | none =>
    simp [socket_ret, os_socket, log, poller_add_fd_in, ho, hp, hc, replay_append, hk, track]
  | some fd =>
    have hge : (fd : Int) ≥ 0 := by omega
    simp only [socket_ret, os_socket, log, poller_add_fd_in, ho, hp]
    split_ifs <;> simp [replay_append, hk, track, hge, hc]


theorem establish_consistent (sc : syscalls) (local_port : Int) (s : rtpclient)
    (ho : s.open_fds = []) (hp : s.poller_fds = [])
    (hz : ∀ c ∈ sc.sockaddress_list, c.socket_ret ≠ some 0) (hk : consistent s) :
    consistent (establish sc local_port s).1 ∧
    ((establish sc local_port s).2 = true → throw_shape (establish sc local_port s).1) := by
  unfold establish
  split_ifs
  · exact ⟨hk, fun _ => Or.inl ⟨ho, hp⟩⟩
  · obtain ⟨l1, l2, l3, l4, l5⟩ :=
      candidate_loop_sockets local_port sc.sockaddress_list s ho hp hz
    have lk := candidate_loop_consistent local_port sc.sockaddress_list s ho hp hz hk
    split
    · rename_i s1 heq
      rw [heq] at l1 l4 lk
      exact ⟨lk, fun _ => Or.inl ⟨l4 rfl, l1⟩⟩
    · rename_i s1 heq
      rw [heq] at l1 l3 lk
      exact ⟨lk, fun _ => Or.inl ⟨l3 rfl, l1⟩⟩
    · rename_i s1 c heq
      rw [heq] at l1 l5 lk
      obtain ⟨o1, o2⟩ := l5 c rfl
      exact midi_phase_consistent sc c s1 o1 l1 o2 lk

theorem catch_consistent (s : rtpclient) (h : throw_shape s) (hk : consistent s) :
    consistent (catch_midi_socket (catch_control_socket s)) := by
  unfold consistent at hk ⊢
  unfold catch_midi_socket catch_control_socket
  simp only [log, os_close, poller_remove_fd]
  rcases h with ⟨h1, h2⟩ | ⟨h1, h2, h3, h4⟩ | ⟨h1, h2, h3, h4⟩
  · rw [h1, h2] at hk
    split_ifs <;> simp [h1, h2, replay_append, hk, track]
  · have : ¬ s.midi_socket ≥ 0 := by omega
    rw [h1, h2] at hk
    simp [h1, h2, h3, this, replay_append, hk, track]
  · rw [h1, h2] at hk
    by_cases hcm : s.control_socket = s.midi_socket
    · simp [h1, h2, h3, h4, hcm, replay_append, hk, track]
    · simp [h1, h2, h3, h4, hcm, replay_append, hk, track, List.erase_cons]

theorem log_consistent (e : effect) (s : rtpclient) (hk : consistent s)
    (hs : ∀ fd ∈ s.poller_fds, fd ∈ s.open_fds)
    (he : (match e with
      | effect.sys_socket _ => false
      | effect.sys_close _ => false
      | effect.add_fd_in _ _ => false
      | effect.remove_fd _ => false
      | _ => true) = true) :
    consistent (log e s) := by
  unfold consistent at hk ⊢
  have hall : (s.poller_fds.all fun fd => decide (fd ∈ s.open_fds)) = true := by
    simpa using hs
  cases e <;> simp at he <;> simp [log, replay_append, hk, track, hall]

theorem tracked_subset (s : rtpclient) (h : sockets_tracked s) :
    ∀ fd ∈ s.poller_fds, fd ∈ s.open_fds := by
  intro fd hfd
  rw [h.1] at hfd
  exact hfd

theorem all_open_of_tracked (s : rtpclient) (h : sockets_tracked s) :
    (s.poller_fds.all fun fd => decide (fd ∈ s.open_fds)) = true := by
  rw [h.1]
  simp

theorem start_handshake_consistent (sc : syscalls) (s : rtpclient) (h : sockets_tracked s)
    (hk : consistent s) : consistent (start_handshake sc s) := by
  have hall := all_open_of_tracked s h
  unfold consistent at hk ⊢
  unfold start_handshake
  simp only []
  split_ifs <;> simp [log, replay_append, hk, track, hall]

theorem connect_to_consistent (sc : syscalls) (local_port : Int) (s : rtpclient)
    (ho : s.open_fds = []) (hp : s.poller_fds = [])
    (hz : ∀ c ∈ sc.sockaddress_list, c.socket_ret ≠ some 0) (hk : consistent s) :
    consistent (connect_to sc local_port s) := by
  have hk0 : consistent { s with control_socket := -1, midi_socket := -1 } := hk
  obtain ⟨e1, e2⟩ :=
    establish_sockets sc local_port { s with control_socket := -1, midi_socket := -1 } ho hp hz
  obtain ⟨k1, k2⟩ :=
    establish_consistent sc local_port { s with control_socket := -1, midi_socket := -1 }
      ho hp hz hk0
  cases hok : establishes sc local_port s with
  | true =>
    rw [connect_to_of_establishes sc local_port s hok]
    apply start_handshake_consistent _ _ _ k1
    apply e1
    unfold establishes at hok
    simpa using hok
  | false =>
    rw [connect_to_of_not_establishes sc local_port s hok, connect_to_catch_eq]
    unfold establishes at hok
    have hthrow :
        (establish sc local_port { s with control_socket := -1, midi_socket := -1 }).2 = true := by
      simpa using hok
    obtain ⟨c1, c2⟩ := e2 hthrow
    have ck := catch_consistent _ (k2 hthrow) k1
    unfold consistent at ck ⊢
    rw [c1, c2] at ck
    split_ifs <;> simp [log, replay_append, ck, track, c1, c2]

theorem reset_consistent (s : rtpclient) (h : sockets_tracked s) (hk : consistent s) :
    consistent (reset s) := by
  have hall := all_open_of_tracked s h
  obtain ⟨hp, ho⟩ := h
  rw [reset_eq]
  have e0 : ∀ t : rtpclient, consistent t → t.open_fds = s.open_fds →
      t.poller_fds = s.poller_fds → t.control_socket = s.control_socket →
      t.midi_socket = s.midi_socket →
      consistent (log effect.peer_reset (reset_control_socket (reset_midi_socket t))) := by
    intro t tk t1 t2 t3 t4
    unfold consistent at tk ⊢
    unfold reset_control_socket reset_midi_socket
    simp only [log, os_close, poller_remove_fd]
    rw [t1, t2] at tk
    rcases ho with ho | ⟨ho, hc, hm⟩
    · rw [hp, ho] at tk
      split_ifs <;> simp [t1, t2, t3, t4, hp, ho, replay_append, tk, track]
    · rw [hp, ho] at tk
      by_cases hcm : s.control_socket = s.midi_socket
      · simp [t1, t2, t3, t4, hp, ho, hc, hm, hcm, replay_append, tk, track]
      · simp [t1, t2, t3, t4, hp, ho, hc, hm, hcm, replay_append, tk, track, List.erase_cons]
  apply e0
  · unfold consistent at hk ⊢
    unfold reset_conn_event
    cases hce : s.conn_event <;> simp [log, hce, replay_append, hk, track, hall]
  · unfold reset_conn_event
    cases hce : s.conn_event <;> simp [log, hce]
  · unfold reset_conn_event
    cases hce : s.conn_event <;> simp [log, hce]
  · unfold reset_conn_event
    cases hce : s.conn_event <;> simp [log, hce]
  · unfold reset_conn_event
    cases hce : s.conn_event <;> simp [log, hce]

theorem run_ops_sockets (ops : List op) (s : rtpclient) (hs : sockets_tracked s)
    (hk : consistent s) (hg : connects_when_closed ops s = true) :
    sockets_tracked (run_ops ops s) ∧ consistent (run_ops ops s) := by
  induction ops generalizing s with
  | nil => exact ⟨hs, hk⟩
  | cons o rest ih =>
    cases o with
    | reset =>
      simp only [connects_when_closed] at hg
      exact ih (reset s) (reset_sockets s hs) (reset_consistent s hs hk) hg
    | connect_to sc local_port =>
      simp only [connects_when_closed, Bool.and_eq_true, List.isEmpty_iff, List.all_eq_true,
        bne_iff_ne, ne_eq] at hg
      obtain ⟨⟨g1, g2⟩, g3⟩ := hg
      have hp : s.poller_fds = [] := by rw [hs.1, g1]
      exact ih (connect_to sc local_port s) (connect_to_sockets sc local_port s g1 hp g2)
        (connect_to_consistent sc local_port s g1 hp g2 hk) g3

theorem replay_snoc (p : List effect) (e : effect) : replay (p ++ [e]) = track (replay p) e := by
  rw [replay_append]
  rfl

/-- In a trace whose replay is `ok`, `close(fd)` is never called on a descriptor
that is registered at that moment (descriptors in use being distinct), and
`add_fd_in(fd)` is only called on an open descriptor. -/
theorem replay_ok_order (tr : List effect) (h : (replay tr).ok = true) :
    (∀ p fd, p ++ [effect.sys_close fd] <+: tr → (replay p).open_fds.Nodup →
      fd ∉ (replay p).poller_fds) ∧
    (∀ p fd port, p ++ [effect.add_fd_in fd port] <+: tr → fd ∈ (replay p).open_fds) := by
  constructor
  · intro p fd hp hnd hmem
    have hsub := replay_ok_prefix tr h _ hp fd
    rw [replay_snoc] at hsub
    simp only [track] at hsub
    have := hsub hmem
    rw [List.Nodup.mem_erase_iff hnd] at this
    exact this.1 rfl
  · intro p fd port hp
    have hsub := replay_ok_prefix tr h _ hp fd
    rw [replay_snoc] at hsub
    simp only [track] at hsub
    exact hsub (by simp)

theorem history_sockets_consistent (ops : List op) (s : rtpclient) (hs : sockets_tracked s)
    (hk : consistent s) (hg : connects_when_closed ops s = true) :
    ∀ t ∈ history ops s, consistent t := by
  induction ops generalizing s with
  | nil => intro t ht; simp [history] at ht
  | cons o rest ih =>
    cases o with
    | reset =>
      simp only [connects_when_closed] at hg
      intro t ht
      simp only [history, apply_op, List.mem_cons] at ht
      rcases ht with ht | ht
      · rw [ht]; exact reset_consistent s hs hk
      · exact ih (reset s) (reset_sockets s hs) (reset_consistent s hs hk) hg t ht
    | connect_to sc local_port =>
      simp only [connects_when_closed, Bool.and_eq_true, List.isEmpty_iff, List.all_eq_true,
        bne_iff_ne, ne_eq] at hg
      obtain ⟨⟨g1, g2⟩, g3⟩ := hg
      have hp : s.poller_fds = [] := by rw [hs.1, g1]
      have hc := connect_to_sockets sc local_port s g1 hp g2
      have hkc := connect_to_consistent sc local_port s g1 hp g2 hk
      intro t ht
      simp only [history, apply_op, List.mem_cons] at ht
      rcases ht with ht | ht
      · rw [ht]; exact hkc
      · exact ih (connect_to sc local_port s) hc hkc g3 t ht

/-- C8 (amended, socket and registration invariant): for every sequence of
`connect_to` and `reset` on a freshly constructed session in which `connect_to`
is only called while no socket of the session is open and no `socket()` call of
the candidate loop returns descriptor 0, after each operation the session has 0
or 2 open sockets and the poller watches exactly those; in particular a
`reset()` followed by such a `connect_to` leaves at most two descriptors
registered. Moreover the trace accounts for the descriptor tables, and after
every single call of the trace, also inside the operations, every registered
descriptor is open: `close` is never called on a descriptor that is still
registered (descriptors in use being distinct) and `add_fd_in` is only called on
an open descriptor, so none is closed while registered and none is registered
after being closed. -/
theorem sockets_zero_or_two (timerstate : Int) (addr : sockaddr) (ops : List op)
    (hg : connects_when_closed ops (rtpclient_new timerstate addr) = true) :
    (∀ t ∈ history ops (rtpclient_new timerstate addr),
      (t.open_fds.length = 0 ∨ t.open_fds.length = 2) ∧ t.poller_fds = t.open_fds) ∧
    (∀ t ∈ history ops (rtpclient_new timerstate addr),
      ∀ (sc : syscalls) (local_port : Int),
        (∀ c ∈ sc.sockaddress_list, c.socket_ret ≠ some 0) →
        (connect_to sc local_port (reset t)).poller_fds.length ≤ 2) ∧
    (∀ t ∈ history ops (rtpclient_new timerstate addr),
      ((replay t.trace).open_fds = t.open_fds ∧ (replay t.trace).poller_fds = t.poller_fds) ∧
      (∀ p, p <+: t.trace → ∀ fd ∈ (replay p).poller_fds, fd ∈ (replay p).open_fds) ∧
      (∀ p fd, p ++ [effect.sys_close fd] <+: t.trace → (replay p).open_fds.Nodup →
        fd ∉ (replay p).poller_fds) ∧
      (∀ p fd port, p ++ [effect.add_fd_in fd port] <+: t.trace →
        fd ∈ (replay p).open_fds)) := by
  have hnew : sockets_tracked (rtpclient_new timerstate addr) :=
    ⟨rfl, Or.inl rfl⟩
  have hknew : consistent (rtpclient_new timerstate addr) := rfl
  have hall := history_sockets ops _ hnew hg
  have hcons := history_sockets_consistent ops _ hnew hknew hg
  refine ⟨?_, ?_, ?_⟩
  · intro t ht
    exact sockets_tracked_count t (hall t ht)
  · intro t ht sc local_port hz
    obtain ⟨r1, r2⟩ := reset_closes t (hall t ht)
    obtain ⟨c1, c2⟩ :=
      sockets_tracked_count _ (connect_to_sockets sc local_port (reset t) r1 r2 hz)
    rw [c2]
    omega
  · intro t ht
    have hk : replay t.trace =
        { open_fds := t.open_fds, poller_fds := t.poller_fds, ok := true } := hcons t ht
    have hok : (replay t.trace).ok = true := by rw [hk]
    obtain ⟨o1, o2⟩ := replay_ok_order t.trace hok
    exact ⟨⟨by rw [hk], by rw [hk]⟩, replay_ok_prefix t.trace hok, o1, o2⟩

/-! ## Rollback of a failed establishment; events and sockets -/

theorem socket_ret_ge (r : Option Nat) : -1 ≤ socket_ret r := by
  cases r with
  | none => simp [socket_ret]
  | some fd => simp only [socket_ret]; omega

theorem try_candidate_fields (local_port : Int) (c : control_try) (s : rtpclient) :
    -1 ≤ (try_candidate local_port c s).1.control_socket := by
  have h := socket_ret_ge c.socket_ret
  unfold try_candidate
  simp only []
  split_ifs <;> simp [os_socket, os_close, log] <;> omega

theorem candidate_loop_fields (local_port : Int) (l : List control_try) (s : rtpclient)
    (hc : -1 ≤ s.control_socket) :
    -1 ≤ (candidate_loop local_port l s).1.control_socket := by
  induction l generalizing s with
  | nil => simpa [candidate_loop] using hc
  | cons d rest ih =>
    have h := try_candidate_fields local_port d s
    unfold candidate_loop
    split
    · rename_i s1 heq
      rw [heq] at h
      exact ih s1 h
    · rename_i s1 heq
      rw [heq] at h
      exact h
    · rename_i s1 heq
      rw [heq] at h
      exact h

theorem try_candidate_midi (local_port : Int) (c : control_try) (s : rtpclient) :
    (try_candidate local_port c s).1.midi_socket = s.midi_socket := by
  unfold try_candidate
  simp only []
  split_ifs <;> simp [os_socket, os_close, log]

theorem candidate_loop_sockets_midi (local_port : Int) (l : List control_try) (s : rtpclient) :
    (candidate_loop local_port l s).1.midi_socket = s.midi_socket := by
  induction l generalizing s with
  | nil => simp [candidate_loop]
  | cons d rest ih =>
    have h := try_candidate_midi local_port d s
    unfold candidate_loop
    split
    · rename_i s1 heq
      rw [heq] at h
      exact (ih s1).trans h
    · rename_i s1 heq
      rw [heq] at h
      exact h
    · rename_i s1 heq
      rw [heq] at h
      exact h

theorem midi_phase_fields (sc : syscalls) (c : control_try) (s : rtpclient) :
    (midi_phase sc c s).1.control_socket = s.control_socket ∧
    -1 ≤ (midi_phase sc c s).1.midi_socket := by
  have h := socket_ret_ge sc.midi_socket_ret
  unfold midi_phase
  simp only []
  split_ifs <;> simp [os_socket, poller_add_fd_in, log] <;> omega

theorem establish_fields (sc : syscalls) (local_port : Int) (s : rtpclient)
    (hc : -1 ≤ s.control_socket) (hm : -1 ≤ s.midi_socket) :
    -1 ≤ (establish sc local_port s).1.control_socket ∧
    -1 ≤ (establish sc local_port s).1.midi_socket := by
  have hl := candidate_loop_fields local_port sc.sockaddress_list s hc
  have hmid := (candidate_loop_sockets_midi local_port sc.sockaddress_list s)
  unfold establish
  split_ifs
  · exact ⟨hc, hm⟩
  · split
    · rename_i s1 heq
      rw [heq] at hl hmid
      exact ⟨hl, by rw [hmid]; exact hm⟩
    · rename_i s1 heq
      rw [heq] at hl hmid
      exact ⟨by simp, by
        show -1 ≤ s1.midi_socket
        rw [hmid]; exact hm⟩
    · rename_i s1 c heq
      rw [heq] at hl hmid
      obtain ⟨m1, m2⟩ := midi_phase_fields sc c s1
      exact ⟨by rw [m1]; exact hl, m2⟩


theorem catch_fields (s : rtpclient) (hc : -1 ≤ s.control_socket) (hm : -1 ≤ s.midi_socket) :
    (catch_midi_socket (catch_control_socket s)).control_socket = -1 ∧
    (catch_midi_socket (catch_control_socket s)).midi_socket = -1 ∧
    peer_calls (catch_midi_socket (catch_control_socket s)).trace = peer_calls s.trace ∧
    ctl (catch_midi_socket (catch_control_socket s)) = ctl s := by
  unfold catch_midi_socket catch_control_socket
  by_cases h1 : s.control_socket ≥ 0 <;> by_cases h2 : s.midi_socket ≥ 0 <;>
    simp [os_close, poller_remove_fd, log, h1, h2, peer_calls, effect.is_os, ctl] <;> omega

/-- Outside the case of descriptor 0, a failed establishment is rolled back
completely: no socket of the attempt stays open or registered, both socket
fields hold -1, the only call on the peer or on timers is one CANT_CONNECT, and
subscriptions, timers and the round counter are as before. -/
theorem failure_rolls_back (sc : syscalls) (local_port : Int) (s : rtpclient)
    (ho : s.open_fds = []) (hp : s.poller_fds = [])
    (hz : ∀ c ∈ sc.sockaddress_list, c.socket_ret ≠ some 0)
    (hf : establishes sc local_port s = false) :
    (connect_to sc local_port s).open_fds = [] ∧
    (connect_to sc local_port s).poller_fds = [] ∧
    (connect_to sc local_port s).control_socket = -1 ∧
    (connect_to sc local_port s).midi_socket = -1 ∧
    peer_calls (connect_to sc local_port s).trace =
      peer_calls s.trace ++ [effect.disconnect_event disconnect_reason_e.CANT_CONNECT] ∧
    ctl (connect_to sc local_port s) = ctl s := by
  rw [connect_to_of_not_establishes sc local_port s hf, connect_to_catch_eq]
  obtain ⟨-, e2⟩ :=
    establish_sockets sc local_port { s with control_socket := -1, midi_socket := -1 } ho hp hz
  have hthrow :
      (establish sc local_port { s with control_socket := -1, midi_socket := -1 }).2 = true := by
    unfold establishes at hf
    simpa using hf
  obtain ⟨c1, c2⟩ := e2 hthrow
  obtain ⟨f1, f2⟩ :=
    establish_fields sc local_port { s with control_socket := -1, midi_socket := -1 }
      (by simp) (by simp)
  obtain ⟨k1, k2⟩ :=
    establish_ctl sc local_port { s with control_socket := -1, midi_socket := -1 }
  obtain ⟨g1, g2, g3, g4⟩ := catch_fields _ f1 f2
  have k1b : ctl (establish sc local_port
      { s with control_socket := -1, midi_socket := -1 }).1 = ctl s := k1
  have k2b : peer_calls (establish sc local_port
      { s with control_socket := -1, midi_socket := -1 }).1.trace = peer_calls s.trace := k2
  rw [k1b] at g4
  rw [k2b] at g3
  split_ifs
  · refine ⟨c1, c2, g1, g2, ?_, g4⟩
    simp [log, g3, peer_calls, effect.is_os]
    simpa [peer_calls] using g3
  · refine ⟨c1, c2, g1, g2, ?_, g4⟩
    simp [log, g3, peer_calls, effect.is_os]
    simpa [peer_calls] using g3

theorem step_sockets (e : event) (s : rtpclient) :
    (step e s).open_fds = s.open_fds ∧ (step e s).poller_fds = s.poller_fds ∧
    (step e s).control_socket = s.control_socket ∧ (step e s).midi_socket = s.midi_socket := by
  apply step_inv (fun t => t.open_fds = s.open_fds ∧ t.poller_fds = s.poller_fds ∧
    t.control_socket = s.control_socket ∧ t.midi_socket = s.midi_socket)
  · exact ⟨rfl, rfl, rfl, rfl⟩
  · intro status t _ ht
    unfold connected_handler
    split_ifs <;> simpa [log, connected, send_ck0_with_timeout] using ht
  · intro t _ ht
    unfold ck_handler
    simp only []
    split_ifs <;> simpa [log] using ht
  · intro ms _ _
    unfold connect_timeout_cb
    split <;> simp [log]
  · intro ms _ _; simp [ck_timeout_cb, log]
  · intro ms _ _; simp [send_ck0_with_timeout, log]

/-- Events never touch the sockets, so they keep the socket bookkeeping. -/
theorem step_sockets_tracked (e : event) (s : rtpclient) (h : sockets_tracked s) :
    sockets_tracked (step e s) := by
  obtain ⟨a, b, c, d⟩ := step_sockets e s
  unfold sockets_tracked at h ⊢
  rw [a, b, c, d]
  exact h

/-! ## Concrete runs -/


/-- C2 (establishment failure, failing input): `socket()` returns descriptor 0 for
the first candidate, which the loop skips without closing it; the second
candidate connects on descriptor 5 and binding the data socket 6 fails. The
establishment fails with one CANT_CONNECT, descriptors 5 and 6 are closed, and
descriptor 0, opened during the attempt, is still open on return. -/
theorem connect_to_failure_leaks_descriptor_zero :
    establishes sc_fd_zero (-1) fresh = false ∧
    (connect_to sc_fd_zero (-1) fresh).open_fds = [0] ∧
    (connect_to sc_fd_zero (-1) fresh).trace =
      [effect.sys_socket 0,
       effect.sys_socket 5, effect.sys_setsockopt 5, effect.sys_connect 5 remote_5004,
       effect.add_fd_in 5 port_e.CONTROL_PORT,
       effect.sys_socket 6, effect.sys_setsockopt 6, effect.sys_bind 6 40001,
       effect.remove_fd 5, effect.sys_close 5, effect.remove_fd 6, effect.sys_close 6,
       effect.freeaddrinfo,
       effect.disconnect_event disconnect_reason_e.CANT_CONNECT] := by
  decide

/-- C3 (counterexample): with the control socket on local port 65535 and the
remote control port 65535 the establishment succeeds; `bind` on the data socket
is called with port 0 and `connect` with port 0, neither of which is `P + 1` or
`R + 1`. -/
theorem port_pairing_wraps_at_65535 :
    establishes sc_top_port (-1) fresh = true ∧
    (connect_to sc_top_port (-1) fresh).local_base_port = 65535 ∧
    (connect_to sc_top_port (-1) fresh).remote_base_port = 65535 ∧
    effect.sys_bind 6 0 ∈ (connect_to sc_top_port (-1) fresh).trace ∧
    effect.sys_connect 6 { host := 1, port := 0 } ∈ (connect_to sc_top_port (-1) fresh).trace ∧
    (connect_to sc_top_port (-1) fresh).midi_addr.port = 0 ∧
    ¬ (ntohs 0 = (connect_to sc_top_port (-1) fresh).local_base_port + 1) ∧
    ¬ (ntohs (connect_to sc_top_port (-1) fresh).midi_addr.port =
        (connect_to sc_top_port (-1) fresh).remote_base_port + 1) := by
  decide

/-- C3 (witness): port pairing for 127.0.0.1:5004. -/
theorem port_pairing_mod_witness :
    establishes sc_ok (-1) fresh = true ∧
    ∃ c ∈ sc_ok.sockaddress_list,
      (connect_to sc_ok (-1) fresh).remote_base_port = ntohs c.ai_addr.port ∧
      ntohs (connect_to sc_ok (-1) fresh).midi_addr.port =
        ((connect_to sc_ok (-1) fresh).remote_base_port + 1) % 65536 := by
  refine ⟨by decide, ?_⟩
  obtain ⟨c, pre, p1, p2, p3, p4, p5, p6, p7, p8, p9, p10⟩ :=
    port_pairing_mod sc_ok (-1) fresh (by decide)
  exact ⟨c, p1, p3, p8⟩

/-- C4 (idempotent reset, failing input): `reset()` of a session with two open
sockets closes them and stores 0 in `control_socket` and `midi_socket`; a second
`reset()`, called while the session has no open socket, deregisters and closes
descriptor 0 twice. -/
theorem reset_twice_closes_descriptor_zero :
    (reset handshaking).open_fds = [] ∧
    (reset handshaking).control_socket = 0 ∧
    (reset handshaking).midi_socket = 0 ∧
    (reset (reset handshaking)).trace =
      (reset handshaking).trace ++
        [effect.timer_disable timer_handle.connect_timer,
         effect.remove_fd 0, effect.sys_close 0,
         effect.remove_fd 0, effect.sys_close 0,
         effect.peer_reset] := by
  decide

/-- C5 (counterexample): `reset()` of a connected session with a probe
outstanding leaves the reply-deadline timer pending and stores 0, not -1, in
both socket fields. -/
theorem reset_leaves_ck_timeout_pending :
    probing.ck_timeout = some 5000 ∧
    (reset probing).ck_timeout = some 5000 ∧
    (reset probing).control_socket = 0 ∧
    (reset probing).midi_socket = 0 ∧
    ¬ ((reset probing).control_socket = -1 ∧ (reset probing).midi_socket = -1 ∧
       (reset probing).connect_timer = none ∧ (reset probing).ck_timeout = none ∧
       (reset probing).timer_ck = none ∧ (reset probing).conn_event = none ∧
       (reset probing).timerstate = 0) := by
  decide

/-- C5 (amended, reset to the pre-connection state): for every session state whose
open sockets are the ones held in `control_socket` and `midi_socket`, after
`reset()` no socket of the session is open or registered, `connect_timer` is
not pending, `conn_event` is empty and the subscription it named is revoked,
and `timerstate = 0`; `ck_timeout` and `timer_ck` are left as they were. -/
theorem reset_returns_to_idle (s : rtpclient) (h : sockets_tracked s) :
    (reset s).open_fds = [] ∧
    (reset s).poller_fds = [] ∧
    (reset s).connect_timer = none ∧
    (reset s).conn_event = none ∧
    (reset s).connected_subs =
      (match s.conn_event with
       | some id => s.connected_subs.erase id
       | none => s.connected_subs) ∧
    (reset s).timerstate = 0 ∧
    (reset s).ck_timeout = s.ck_timeout ∧
    (reset s).timer_ck = s.timer_ck := by
  obtain ⟨c1, c2⟩ := reset_closes s h
  obtain ⟨f1, f2, f3, f4, -, f6, f7, -⟩ := reset_fields s
  exact ⟨c1, c2, f1, f2, f3, f4, f6, f7⟩

/-- C5 (witness): reset of an idle session, of a session whose handshake is
pending, of a connected session with a probe outstanding and of a connected
session with the next probe scheduled. -/
theorem reset_returns_to_idle_witness :
    (sockets_tracked fresh ∧ (reset fresh).open_fds = []) ∧
    (sockets_tracked handshaking ∧ (reset handshaking).open_fds = []) ∧
    (sockets_tracked probing ∧ (reset probing).open_fds = []) ∧
    (sockets_tracked (step event.ck_reply probing) ∧
      (reset (step event.ck_reply probing)).open_fds = []) :=
  ⟨⟨by decide, (reset_returns_to_idle fresh (by decide)).1⟩,
   ⟨by decide, (reset_returns_to_idle handshaking (by decide)).1⟩,
   ⟨by decide, (reset_returns_to_idle probing (by decide)).1⟩,
   ⟨by decide, (reset_returns_to_idle (step event.ck_reply probing) (by decide)).1⟩⟩

/-- C6 (counterexample): `connect_to` twice without `reset()` leaves the first
attempt's status subscription connected next to the second one. When the
overall timer of the second attempt expires, only the second subscription is
revoked, and the status changes reported afterwards still make the session
issue the handshake on the MIDI channel, connect a latency handler and send a
latency probe. -/
theorem stale_subscription_survives_timeout :
    establishes sc_ok_again (-1) (connect_to sc_ok (-1) fresh) = true ∧
    double_attempt.connected_subs = [0, 1] ∧
    (step event.connect_timer_fired double_attempt).trace =
      double_attempt.trace ++
        [effect.connected_event_disconnect 1,
         effect.disconnect_event disconnect_reason_e.CONNECT_TIMEOUT] ∧
    (step event.connect_timer_fired double_attempt).connected_subs = [0] ∧
    (run [event.connect_timer_fired,
          event.status_changed status_e.CONTROL_CONNECTED,
          event.status_changed status_e.CONNECTED] double_attempt).trace =
      double_attempt.trace ++
        [effect.connected_event_disconnect 1,
         effect.disconnect_event disconnect_reason_e.CONNECT_TIMEOUT,
         effect.peer_connect_to port_e.MIDI_PORT,
         effect.timer_disable timer_handle.connect_timer,
         effect.ck_event_connect,
         effect.peer_send_ck0,
         effect.add_timer_event 5000 timer_cb.ck_timeout] := by
  decide

/-- C6 (witness): the overall timer fires after CONTROL_CONNECTED was reported. -/
theorem connect_timeout_exactly_once_witness :
    fresh.connected_subs = [] ∧ establishes sc_ok (-1) fresh = true ∧
    (step event.connect_timer_fired
      (run [event.status_changed status_e.CONTROL_CONNECTED]
        (connect_to sc_ok (-1) fresh))).connected_subs = [] :=
  ⟨rfl, by decide,
   (connect_timeout_exactly_once sc_ok (-1) fresh rfl (by decide)
      [event.status_changed status_e.CONTROL_CONNECTED] (by decide) (by decide)).1.2.1⟩

/-- C7 (counterexample): a latency reply that arrives after the reply deadline
fired schedules the next probe, and that probe is sent. -/
theorem late_reply_schedules_probe :
    (step event.ck_timeout_fired probing).trace =
      probing.trace ++ [effect.disconnect_event disconnect_reason_e.CK_TIMEOUT] ∧
    (step event.ck_reply (step event.ck_timeout_fired probing)).timer_ck = some 250 ∧
    (run [event.ck_timeout_fired, event.ck_reply, event.timer_ck_fired] probing).trace =
      probing.trace ++
        [effect.disconnect_event disconnect_reason_e.CK_TIMEOUT,
         effect.timer_disable timer_handle.ck_timeout,
         effect.add_timer_event 250 timer_cb.send_ck0_with_timeout,
         effect.peer_send_ck0,
         effect.add_timer_event 5000 timer_cb.ck_timeout] := by
  decide

/-- C7 (amended, keepalive timeout): for every probe sent by
`send_ck0_with_timeout` while no next probe is scheduled and one latency-reply
handler is connected, the expiry of the 5 s reply deadline emits exactly one
CK_TIMEOUT and nothing else, after which neither `ck_timeout` nor `timer_ck` is
pending and no timer expiry can follow; the latency-reply handler stays
connected, so a reply arriving after the timeout schedules the next probe
(250 ms or 10 s, by `timerstate`). -/
theorem ck_timeout_reports_once (s : rtpclient) (h1 : s.timer_ck = none) (h2 : s.ck_subs = 1) :
    (step event.ck_timeout_fired (send_ck0_with_timeout s)).trace =
      (send_ck0_with_timeout s).trace ++
        [effect.disconnect_event disconnect_reason_e.CK_TIMEOUT] ∧
    (step event.ck_timeout_fired (send_ck0_with_timeout s)).ck_timeout = none ∧
    (step event.ck_timeout_fired (send_ck0_with_timeout s)).timer_ck = none ∧
    step event.ck_timeout_fired (step event.ck_timeout_fired (send_ck0_with_timeout s)) =
      step event.ck_timeout_fired (send_ck0_with_timeout s) ∧
    step event.timer_ck_fired (step event.ck_timeout_fired (send_ck0_with_timeout s)) =
      step event.ck_timeout_fired (send_ck0_with_timeout s) ∧
    (step event.ck_reply (step event.ck_timeout_fired (send_ck0_with_timeout s))).timer_ck =
      some (if s.timerstate < 6 then 250 else 10000) := by
  have e : step event.ck_timeout_fired (send_ck0_with_timeout s) =
      { s with ck_timeout := none
               trace := s.trace ++ [effect.peer_send_ck0,
                 effect.add_timer_event 5000 timer_cb.ck_timeout,
                 effect.disconnect_event disconnect_reason_e.CK_TIMEOUT] } := by
    simp [step, send_ck0_with_timeout, ck_timeout_cb, log]
  rw [e]
  refine ⟨by simp [send_ck0_with_timeout, log], rfl, h1, by simp [step], by simp [step, h1], ?_⟩
  simp only [step, h2, Function.iterate_one]
  by_cases hlt : s.timerstate < 6
  · rw [ck_handler_fast _ (by simpa using hlt)]; simp [hlt]
  · rw [ck_handler_slow _ (by simpa using hlt)]; simp [hlt]

/-- C7 (witness): the second probe of a connected session times out. -/
theorem ck_timeout_reports_once_witness :
    probing.timer_ck = none ∧ probing.ck_subs = 1 ∧
    (step event.ck_timeout_fired (send_ck0_with_timeout probing)).timer_ck = none :=
  ⟨by decide, by decide, (ck_timeout_reports_once probing (by decide) (by decide)).2.2.1⟩

/-- C8 (counterexample): two successful `connect_to` calls in a row leave four
sockets open; and when `socket()` returns descriptor 0 in the candidate loop a
successful establishment leaves three sockets open, one of them unregistered. -/
theorem double_connect_leaves_four_sockets :
    (run_ops [op.connect_to sc_ok (-1), op.connect_to sc_ok_again (-1)] fresh).open_fds =
      [5, 6, 7, 8] ∧
    (run_ops [op.connect_to sc_ok (-1), op.connect_to sc_ok_again (-1)] fresh).poller_fds =
      [5, 6, 7, 8] ∧
    (run_ops [op.connect_to sc_fd_zero_ok (-1)] fresh).open_fds = [0, 5, 6] ∧
    (run_ops [op.connect_to sc_fd_zero_ok (-1)] fresh).poller_fds = [5, 6] := by
  decide

/-- C8 (witness): connect, reset, connect again; after the last operation two
sockets are open and exactly those are registered, and when the `reset()` of
that run closes descriptor 6 (the seventeenth call of the trace) it is no
longer registered. -/
theorem sockets_zero_or_two_witness :
    connects_when_closed
      [op.connect_to sc_ok (-1), op.reset, op.connect_to sc_ok_again (-1)]
      (rtpclient_new 0 { host := 0, port := 0 }) = true ∧
    ((connect_to sc_ok_again (-1) (reset (connect_to sc_ok (-1) fresh))).open_fds.length = 0 ∨
     (connect_to sc_ok_again (-1) (reset (connect_to sc_ok (-1) fresh))).open_fds.length = 2) ∧
    (connect_to sc_ok_again (-1) (reset (connect_to sc_ok (-1) fresh))).poller_fds =
      (connect_to sc_ok_again (-1) (reset (connect_to sc_ok (-1) fresh))).open_fds ∧
    (6 : Int) ∉ (replay (List.take 16
      (connect_to sc_ok_again (-1) (reset (connect_to sc_ok (-1) fresh))).trace)).poller_fds :=
  ⟨by decide,
   ((sockets_zero_or_two 0 { host := 0, port := 0 }
      [op.connect_to sc_ok (-1), op.reset, op.connect_to sc_ok_again (-1)] (by decide)).1
      (connect_to sc_ok_again (-1) (reset (connect_to sc_ok (-1) fresh))) (by decide)).1,
   ((sockets_zero_or_two 0 { host := 0, port := 0 }
      [op.connect_to sc_ok (-1), op.reset, op.connect_to sc_ok_again (-1)] (by decide)).1
      (connect_to sc_ok_again (-1) (reset (connect_to sc_ok (-1) fresh))) (by decide)).2,
   ((sockets_zero_or_two 0 { host := 0, port := 0 }
      [op.connect_to sc_ok (-1), op.reset, op.connect_to sc_ok_again (-1)] (by decide)).2.2
      (connect_to sc_ok_again (-1) (reset (connect_to sc_ok (-1) fresh))) (by decide)).2.2.1
      (List.take 16 (connect_to sc_ok_again (-1) (reset (connect_to sc_ok (-1) fresh))).trace)
      6 (by decide) (by decide)⟩

/-- C9 (counterexample): after `connect_to` twice without `reset()` two status
subscriptions are connected, and one CONTROL_CONNECTED status makes the session
issue the handshake on the MIDI channel twice. -/
theorem stale_subscription_doubles_handshake :
    establishes sc_ok_again (-1) (connect_to sc_ok (-1) fresh) = true ∧
    double_attempt.conn_event = some 1 ∧
    double_attempt.connected_subs = [0, 1] ∧
    (step (event.status_changed status_e.CONTROL_CONNECTED) double_attempt).trace =
      double_attempt.trace ++
        [effect.peer_connect_to port_e.MIDI_PORT,
         effect.peer_connect_to port_e.MIDI_PORT] := by
  decide

/-- C9 (witness): a MIDI_CONNECTED status after CONTROL_CONNECTED changes nothing. -/
theorem handshake_orchestration_witness :
    fresh.connected_subs = [] ∧ establishes sc_ok (-1) fresh = true ∧
    step (event.status_changed status_e.MIDI_CONNECTED)
        (run [event.status_changed status_e.CONTROL_CONNECTED] (connect_to sc_ok (-1) fresh)) =
      run [event.status_changed status_e.CONTROL_CONNECTED] (connect_to sc_ok (-1) fresh) :=
  ⟨rfl, by decide,
   (handshake_orchestration sc_ok (-1) fresh rfl (by decide)
      [event.status_changed status_e.CONTROL_CONNECTED] (by decide)).2.2.2
      status_e.MIDI_CONNECTED (by decide) (by decide)⟩

/-- C10 (descriptor ownership, failing input): the only resolved candidate gets
socket 5 and `connect()` fails on it. `connect_to` closes 5, then stores 0 in
`control_socket` and its rollback deregisters and closes descriptor 0, which no
`socket()` call of the session returned. -/
theorem connect_to_closes_descriptor_zero :
    (connect_to sc_no_candidate (-1) fresh).trace =
      [effect.sys_socket 5, effect.sys_setsockopt 5, effect.sys_connect 5 remote_5004,
       effect.sys_close 5,
       effect.remove_fd 0, effect.sys_close 0,
       effect.freeaddrinfo,
       effect.disconnect_event disconnect_reason_e.CANT_CONNECT] ∧
    effect.sys_socket 0 ∉ (connect_to sc_no_candidate (-1) fresh).trace := by
  decide

end rtpmidid
